import Mathlib

/-!
Shallow embedding of the Conversational Analytics Engine of the
AI_Business_Analytics_Chatbot repository (src/src/conversational/):
the relevance gate, the robust intent matcher (`intent_matcher.py`),
the analytics dispatcher, the visualization synthesizer, the template
response composer and the confidence scorer of
`SmartAnalyticsAgent` (`smart_agent.py`), together with the pieces of
`openai_agent.py` the verified claims touch.

Python/pandas values are modelled as follows: machine floats become
exact rationals (`ℚ`); Python dicts with heterogeneous values become
association lists over an inductive value type; operations that can
raise in Python (`ZeroDivisionError`, attribute errors on wrongly
shaped values) return `Option` and `none` marks the raising path.
External collaborators (pandas numerics, datetime parsing) are
modelled by total functions; where a float result would be `NaN` the
model returns `0` and no verified claim depends on that value.
-/

/-- Python whitespace: the characters recognized by `str.split()` and
`str.strip()` in the ASCII range. -/
def pySpace (c : Char) : Bool :=
  c == ' ' || c == '\t' || c == '\n' || c == '\r' || c == '\x0b' || c == '\x0c'

/-- Python `str.lower()` (the agent only relies on ASCII case folding). -/
def pyLower (s : String) : String := ⟨s.data.map Char.toLower⟩

/-- Python `str.strip()`. -/
def pyStrip (s : String) : String :=
  ⟨((s.data.dropWhile fun c => pySpace c).reverse.dropWhile fun c => pySpace c).reverse⟩

/-- Helper for `pySplit`: split a character list on whitespace runs;
`acc` is the current word, reversed. -/
def splitWsAux : List Char → List Char → List (List Char)
  | [], acc => if acc = [] then [] else [acc.reverse]
  | c :: cs, acc =>
    if pySpace c then
      if acc = [] then splitWsAux cs [] else acc.reverse :: splitWsAux cs []
    else splitWsAux cs (c :: acc)

/-- Python `str.split()` with no separator: words between whitespace runs. -/
def pySplit (s : String) : List String := (splitWsAux s.data []).map fun w => ⟨w⟩

/-- Does the character list `l` start with `p`? -/
def leadsWith : List Char → List Char → Bool
  | _, [] => true
  | [], _ :: _ => false
  | c :: cs, d :: ds => c == d && leadsWith cs ds

/-- Contiguous-substring test on character lists. -/
def subIn (needle hay : List Char) : Bool :=
  (List.range (hay.length + 1)).any fun i => leadsWith (hay.drop i) needle

/-- Python substring test `needle in hay` on strings. -/
def pyIn (needle hay : String) : Bool := subIn needle.data hay.data

/-- Python `' '.join(ws)`. -/
def joinSpace : List String → String
  | [] => ""
  | [w] => w
  | w :: ws => w ++ " " ++ joinSpace ws

/-- Helper for `pyTitle`: the Bool argument records whether the previous
character was alphabetic. -/
def titleAux : List Char → Bool → List Char
  | [], _ => []
  | c :: cs, prevAlpha =>
    (if c.isAlpha then (if prevAlpha then c.toLower else c.toUpper) else c)
      :: titleAux cs c.isAlpha

/-- Python `str.title()` (ASCII letters). -/
def pyTitle (s : String) : String := ⟨titleAux s.data false⟩

/-- Helper for `pyReplace`: replace occurrences of `old` (nonempty at
every call site) left to right; the fuel is the remaining input length,
which always suffices. -/
def replaceAux (old new : List Char) : ℕ → List Char → List Char
  | 0, l => l
  | _ + 1, [] => []
  | fuel + 1, c :: cs =>
    if leadsWith (c :: cs) old && decide (old ≠ []) then
      new ++ replaceAux old new fuel ((c :: cs).drop old.length)
    else c :: replaceAux old new fuel cs

/-- Python `str.replace(old, new)`: all non-overlapping occurrences. -/
def pyReplace (s old new : String) : String :=
  ⟨replaceAux old.data new.data s.data.length s.data⟩

/-- Round to the nearest integer, ties to even: the rounding used by
Python float formatting. -/
def roundHalfEven (q : ℚ) : ℤ :=
  let f := ⌊q⌋
  let r := q - (f : ℚ)
  if r < 1/2 then f else if 1/2 < r then f + 1 else if f % 2 = 0 then f else f + 1

/-- Split a character list into chunks of three (used for thousands
grouping, applied to the reversed digit list). -/
def chunk3 : List Char → List (List Char)
  | [] => []
  | [a] => [[a]]
  | [a, b] => [[a, b]]
  | a :: b :: c :: rest => [a, b, c] :: chunk3 rest

/-- Decimal digits of `n` grouped with `,` every three digits. -/
def commaGroup (n : ℕ) : String :=
  ⟨List.intercalate [','] (((chunk3 (toString n).data.reverse).map List.reverse).reverse)⟩

/-- Left-pad a string with zeros to length `d`. -/
def padZeros (d : ℕ) (s : String) : String :=
  (⟨List.replicate (d - s.length) '0'⟩ : String) ++ s

/-- Python `f"{v:,.df}"`: round half-to-even at `d` decimals, thousands
separators in the integer part. -/
def pyFmtComma (d : ℕ) (v : ℚ) : String :=
  let neg := v < 0
  let m := (roundHalfEven (|v| * (10 : ℚ) ^ d)).toNat
  let ip := m / 10 ^ d
  let fp := m % 10 ^ d
  (if neg then "-" else "") ++ commaGroup ip ++
    (if d = 0 then "" else "." ++ padZeros d (toString fp))

/-- Python `f"{v:.df}"`: fixed decimals without thousands separators. -/
def pyFmtFixed (d : ℕ) (v : ℚ) : String :=
  let neg := v < 0
  let m := (roundHalfEven (|v| * (10 : ℚ) ^ d)).toNat
  let ip := m / 10 ^ d
  let fp := m % 10 ^ d
  (if neg then "-" else "") ++ toString ip ++
    (if d = 0 then "" else "." ++ padZeros d (toString fp))

/-- Python `f"{v:+.1f}"`: one decimal, explicit sign. -/
def pyFmtSigned1 (v : ℚ) : String :=
  (if v < 0 then "" else "+") ++ pyFmtFixed 1 v

/-- Approximate rendering of Python `str(float)`; no verified claim
depends on the exact text this produces. -/
def pyFloatStr (v : ℚ) : String :=
  if v.den = 1 then toString v.num ++ ".0" else pyFmtFixed 6 v

/-- Ascending positions of character `c` in `b` (difflib `b2j` before the
autojunk purge). -/
def charPositions (b : List Char) (c : Char) : List ℕ :=
  (List.range b.length).filter fun j => b.getD j ' ' == c

/-- difflib autojunk: with no junk predicate, characters of `b` occurring
more than `len(b)/100 + 1` times are dropped from `b2j` when
`len(b) ≥ 200`. -/
def isPopular (b : List Char) (c : Char) : Bool :=
  decide (200 ≤ b.length) && decide (b.length / 100 + 1 < (charPositions b c).length)

/-- difflib `b2j[c]` with autojunk applied. -/
def b2jGet (b : List Char) (c : Char) : List ℕ :=
  if isPopular b c then [] else charPositions b c

/-- Lookup in the `j2len` association list, defaulting to 0
(difflib `j2len.get(j-1, 0)`). -/
def j2lenGet (l : List (ℕ × ℕ)) (k : ℕ) : ℕ :=
  match l.find? fun p => p.1 == k with
  | some p => p.2
  | none => 0

/-- One row of difflib `find_longest_match`: scan the b-positions of `a[i]`
in ascending order, building the new `j2len` table and updating the best
`(besti, bestj, bestsize)`. -/
def flmRow (j2len : List (ℕ × ℕ)) (i : ℕ) (js : List ℕ) (best : ℕ × ℕ × ℕ) :
    List (ℕ × ℕ) × (ℕ × ℕ × ℕ) :=
  js.foldl
    (fun acc j =>
      let k := (if j = 0 then 0 else j2lenGet j2len (j - 1)) + 1
      let b := acc.2
      ((j, k) :: acc.1,
        if b.2.2 < k then (i + 1 - k, j + 1 - k, k) else b))
    ([], best)

/-- The outer `for i in range(alo, ahi)` loop of `find_longest_match`,
threading the `j2len` table between rows. -/
def flmRows (a b : List Char) (blo bhi : ℕ) :
    List ℕ → List (ℕ × ℕ) → (ℕ × ℕ × ℕ) → (ℕ × ℕ × ℕ)
  | [], _, best => best
  | i :: is, j2len, best =>
      let js := (b2jGet b (a.getD i ' ')).filter fun j => decide (blo ≤ j) && decide (j < bhi)
      let r := flmRow j2len i js best
      flmRows a b blo bhi is r.1 r.2

/-- The left extension loop of `find_longest_match` (with `isjunk = None`
the junk test is always false, so matching characters always extend). The
fuel only bounds the loop; `a.length + 1` always suffices since `besti`
strictly decreases. -/
def extendLo (a b : List Char) (alo blo : ℕ) : ℕ → ℕ × ℕ × ℕ → ℕ × ℕ × ℕ
  | 0, best => best
  | fuel + 1, (bi, bj, bs) =>
    if alo < bi && blo < bj && (a.getD (bi - 1) ' ' == b.getD (bj - 1) ' ') then
      extendLo a b alo blo fuel (bi - 1, bj - 1, bs + 1)
    else (bi, bj, bs)

/-- The right extension loop of `find_longest_match`. -/
def extendHi (a b : List Char) (ahi bhi : ℕ) : ℕ → ℕ × ℕ × ℕ → ℕ × ℕ × ℕ
  | 0, best => best
  | fuel + 1, (bi, bj, bs) =>
    if bi + bs < ahi && bj + bs < bhi && (a.getD (bi + bs) ' ' == b.getD (bj + bs) ' ') then
      extendHi a b ahi bhi fuel (bi, bj, bs + 1)
    else (bi, bj, bs)

/-- difflib `SequenceMatcher.find_longest_match(alo, ahi, blo, bhi)` with
`isjunk = None`, returning `(besti, bestj, bestsize)`. -/
def findLongestMatch (a b : List Char) (alo ahi blo bhi : ℕ) : ℕ × ℕ × ℕ :=
  let best := flmRows a b blo bhi ((List.range ahi).drop alo) [] (alo, blo, 0)
  let best := extendLo a b alo blo (a.length + 1) best
  extendHi a b ahi bhi (a.length + 1) best

/-- Total size of the difflib matching blocks of `a[alo:ahi] × b[blo:bhi]`
(the recursion of `get_matching_blocks`, keeping only the sum of block
sizes, which is all `ratio()` uses). The fuel bounds the recursion depth;
`a.length + b.length + 1` always suffices because each recursive call
strictly shrinks `(ahi - alo) + (bhi - blo)`. -/
def matchSumAux (a b : List Char) : ℕ → ℕ → ℕ → ℕ → ℕ → ℕ
  | 0, _, _, _, _ => 0
  | fuel + 1, alo, ahi, blo, bhi =>
    let m := findLongestMatch a b alo ahi blo bhi
    let i := m.1
    let j := m.2.1
    let k := m.2.2
    if k = 0 then 0
    else
      k + (if alo < i ∧ blo < j then matchSumAux a b fuel alo i blo j else 0)
        + (if i + k < ahi ∧ j + k < bhi then matchSumAux a b fuel (i + k) ahi (j + k) bhi else 0)

/-- Total matched characters between `a` and `b` (difflib). -/
def matchSum (a b : List Char) : ℕ :=
  matchSumAux a b (a.length + b.length + 1) 0 a.length 0 b.length

/-- difflib `SequenceMatcher(None, t1, t2).ratio()` as an exact rational:
`2 * M / (len(a) + len(b))`, and 1.0 when both strings are empty. -/
def seqMatchScore (t1 t2 : String) : ℚ :=
  let n := t1.data.length + t2.data.length
  if n = 0 then 1 else 2 * (matchSum t1.data t2.data : ℚ) / n

/-- `RobustIntentMatcher._build_synonym_dictionary`, in dict insertion
order. -/
def synonymsTable : List (String × List String) :=
  [("total", ["sum", "aggregate", "overall", "combined", "cumulative", "grand total", "all"]),
   ("average", ["mean", "avg", "typical", "normal", "expected"]),
   ("count", ["number", "how many", "quantity", "amount of items", "tally"]),
   ("top", ["best", "highest", "maximum", "greatest", "leading", "first", "most", "largest"]),
   ("bottom", ["worst", "lowest", "minimum", "smallest", "last", "least"]),
   ("rank", ["order", "sort", "arrange", "organize", "list"]),
   ("trend", ["pattern", "change over time", "progression", "movement", "trajectory"]),
   ("increase", ["rise", "growth", "uptick", "surge", "spike", "jump", "climb"]),
   ("decrease", ["fall", "decline", "drop", "reduction", "dip", "slump"]),
   ("compare", ["versus", "vs", "against", "difference between", "contrast"]),
   ("difference", ["gap", "variance", "delta", "change"]),
   ("daily", ["per day", "each day", "day by day"]),
   ("weekly", ["per week", "each week", "week by week"]),
   ("monthly", ["per month", "each month", "month by month"]),
   ("yearly", ["per year", "annual", "annually", "each year"]),
   ("revenue", ["sales", "income", "earnings", "proceeds", "receipts", "turnover"]),
   ("profit", ["margin", "earnings", "net income", "surplus"]),
   ("cost", ["expense", "expenditure", "spending", "outlay"]),
   ("price", ["rate", "charge", "fee", "value", "amount"]),
   ("customer", ["client", "buyer", "purchaser", "consumer", "patron"]),
   ("churn", ["attrition", "turnover", "lost customers", "cancellations"]),
   ("retention", ["loyalty", "repeat customers", "staying power"]),
   ("product", ["item", "good", "merchandise", "article", "sku"]),
   ("category", ["type", "class", "group", "segment", "division"]),
   ("inventory", ["stock", "supply", "warehouse", "goods on hand"]),
   ("performance", ["results", "outcomes", "metrics", "kpi", "indicators"]),
   ("growth", ["expansion", "increase", "development", "progress"]),
   ("efficiency", ["productivity", "effectiveness", "optimization"])]

/-- Metrics list of `RobustIntentMatcher._get_aggregation_patterns`. -/
def aggregationMetricsList : List String :=
  ["revenue", "sales", "profit", "cost", "price", "value", "amount", "quantity",
   "orders", "transactions", "customers", "users", "products", "items", "units"]

/-- `RobustIntentMatcher._get_aggregation_patterns`: total patterns followed
by average patterns, each instantiated per metric. -/
def aggregation_patterns : List (String × ℚ) :=
  (aggregationMetricsList.flatMap fun metric =>
    [("what is the total " ++ metric, 0.95),
     ("total " ++ metric, 0.90),
     ("show me total " ++ metric, 0.90),
     ("calculate total " ++ metric, 0.90),
     ("sum of " ++ metric, 0.90),
     ("aggregate " ++ metric, 0.85),
     ("overall " ++ metric, 0.85),
     ("combined " ++ metric, 0.85),
     ("what\x27s the " ++ metric, 0.80),
     (metric ++ " total", 0.80),
     ("how much " ++ metric, 0.85),
     ("how many " ++ metric, 0.85),
     ("give me " ++ metric, 0.75),
     (metric ++ "?", 0.70),
     ("all " ++ metric, 0.80)]) ++
  (aggregationMetricsList.flatMap fun metric =>
    [("what is the average " ++ metric, 0.95),
     ("average " ++ metric, 0.90),
     ("mean " ++ metric, 0.90),
     ("avg " ++ metric, 0.85),
     ("typical " ++ metric, 0.80)])

/-- Entity list of `RobustIntentMatcher._get_ranking_patterns`. -/
def rankingEntitiesList : List String :=
  ["product", "customer", "category", "region", "salesperson", "item",
   "store", "location", "brand", "supplier", "channel", "segment"]

/-- Numbers list of `RobustIntentMatcher._get_ranking_patterns`. -/
def rankingNumbersList : List String := ["5", "10", "20", "3", "1", "100"]

/-- `RobustIntentMatcher._get_ranking_patterns`. -/
def ranking_patterns : List (String × ℚ) :=
  rankingEntitiesList.flatMap fun entity =>
    rankingNumbersList.flatMap fun n =>
      [("top " ++ n ++ " " ++ entity, 0.95),
       ("top " ++ entity, 0.90),
       ("best " ++ n ++ " " ++ entity, 0.95),
       ("best " ++ entity, 0.90),
       ("show me top " ++ n ++ " " ++ entity, 0.90),
       ("what are the top " ++ n ++ " " ++ entity, 0.95),
       ("which " ++ entity ++ " are best", 0.90),
       ("highest " ++ entity, 0.85),
       ("most " ++ entity, 0.80),
       ("bottom " ++ n ++ " " ++ entity, 0.95),
       ("worst " ++ entity, 0.90),
       ("lowest " ++ entity, 0.85),
       ("rank " ++ entity, 0.85),
       (entity ++ " ranking", 0.85)]

/-- Metric and timeframe lists of `RobustIntentMatcher._get_trend_patterns`. -/
def trendMetricsList : List String :=
  ["sales", "revenue", "profit", "orders", "customers", "growth"]

/-- Timeframe list of `RobustIntentMatcher._get_trend_patterns`. -/
def trendTimesList : List String :=
  ["over time", "monthly", "weekly", "daily", "yearly", "quarterly"]

/-- `RobustIntentMatcher._get_trend_patterns`. -/
def trend_patterns : List (String × ℚ) :=
  trendMetricsList.flatMap fun metric =>
    trendTimesList.flatMap fun time =>
      [(metric ++ " " ++ time, 0.95),
       ("trend in " ++ metric, 0.95),
       (metric ++ " trend", 0.90),
       ("how is " ++ metric ++ " changing", 0.90),
       ("show " ++ metric ++ " " ++ time, 0.90),
       (metric ++ " over " ++ time, 0.90),
       ("visualize " ++ metric, 0.85),
       (metric ++ " progression", 0.85),
       ("is " ++ metric ++ " increasing", 0.90),
       ("is " ++ metric ++ " decreasing", 0.90)]

/-- Entity list of `RobustIntentMatcher._get_comparison_patterns`. -/
def comparisonEntitiesList : List String :=
  ["region", "category", "product", "store", "channel", "segment"]

/-- `RobustIntentMatcher._get_comparison_patterns`. -/
def comparison_patterns : List (String × ℚ) :=
  comparisonEntitiesList.flatMap fun entity =>
    [("compare " ++ entity, 0.95),
     (entity ++ " comparison", 0.90),
     (entity ++ " vs " ++ entity, 0.90),
     ("difference between " ++ entity, 0.90),
     (entity ++ " performance", 0.85),
     ("which " ++ entity ++ " is better", 0.90),
     (entity ++ " breakdown", 0.85)]

/-- `RobustIntentMatcher._get_statistics_patterns`. -/
def statistics_patterns : List (String × ℚ) :=
  [("statistics", 0.90), ("stats", 0.85), ("summary", 0.90), ("overview", 0.85),
   ("key metrics", 0.90), ("kpi", 0.85), ("metrics", 0.80), ("median", 0.85),
   ("standard deviation", 0.90), ("variance", 0.85), ("percentile", 0.85)]

/-- `RobustIntentMatcher._get_diagnostic_patterns`. -/
def diagnostic_patterns : List (String × ℚ) :=
  [("why", 0.90), ("what caused", 0.95), ("reason for", 0.90), ("root cause", 0.95),
   ("why did", 0.90), ("explain", 0.85), ("what happened", 0.85),
   ("investigate", 0.85), ("analyze", 0.80), ("breakdown", 0.80)]

/-- `RobustIntentMatcher._get_predictive_patterns`. -/
def predictive_patterns : List (String × ℚ) :=
  [("forecast", 0.95), ("predict", 0.95), ("future", 0.85), ("next month", 0.90),
   ("next quarter", 0.90), ("next year", 0.90), ("projection", 0.90),
   ("expected", 0.85), ("anticipated", 0.85), ("likely", 0.80)]

/-- `RobustIntentMatcher._get_prescriptive_patterns`. -/
def prescriptive_patterns : List (String × ℚ) :=
  [("recommend", 0.95), ("suggestion", 0.90), ("what should", 0.95),
   ("how can i improve", 0.95), ("optimize", 0.90), ("best action", 0.90),
   ("advice", 0.85), ("strategy", 0.85)]

/-- `RobustIntentMatcher._get_distribution_patterns`. -/
def distribution_patterns : List (String × ℚ) :=
  [("distribution", 0.95), ("spread", 0.85), ("histogram", 0.90),
   ("frequency", 0.85), ("range", 0.80)]

/-- `RobustIntentMatcher._get_correlation_patterns`. -/
def correlation_patterns : List (String × ℚ) :=
  [("correlation", 0.95), ("relationship", 0.90), ("related", 0.85),
   ("impact", 0.85), ("effect", 0.80), ("influence", 0.85)]

/-- `RobustIntentMatcher._get_segmentation_patterns`. -/
def segmentation_patterns : List (String × ℚ) :=
  [("segment", 0.90), ("group", 0.85), ("cluster", 0.90), ("category", 0.80),
   ("break down by", 0.90), ("split by", 0.85)]

/-- `RobustIntentMatcher._get_anomaly_patterns`. -/
def anomaly_patterns : List (String × ℚ) :=
  [("anomaly", 0.95), ("outlier", 0.95), ("unusual", 0.90), ("strange", 0.85),
   ("unexpected", 0.90), ("irregular", 0.85)]

/-- `RobustIntentMatcher._build_intent_database`, in dict insertion order. -/
def intentPatternsTable : List (String × List (String × ℚ)) :=
  [("aggregation", aggregation_patterns),
   ("ranking", ranking_patterns),
   ("trend_analysis", trend_patterns),
   ("comparison", comparison_patterns),
   ("statistics", statistics_patterns),
   ("diagnostic", diagnostic_patterns),
   ("predictive", predictive_patterns),
   ("prescriptive", prescriptive_patterns),
   ("distribution", distribution_patterns),
   ("correlation", correlation_patterns),
   ("segmentation", segmentation_patterns),
   ("anomaly_detection", anomaly_patterns)]

/-- `RobustIntentMatcher._expand_with_synonyms`: each word of the query is
kept and, when it belongs to a synonym group (as member or key, first
group in table order), the whole group is appended after it. -/
def expand_with_synonyms (query : String) : String :=
  let words := pySplit query
  joinSpace (words.flatMap fun w =>
    w :: (match synonymsTable.find? fun e => e.2.contains w || w == e.1 with
          | some e => e.2
          | none => []))

/-- Distinct words of a string: Python `set(s.split())`, as a
deduplicated list (only its cardinality and membership are used). -/
def wordSet (s : String) : List String := (pySplit s).dedup

/-- `RobustIntentMatcher._calculate_similarity`. `none` models the
`ZeroDivisionError` Python raises when both word sets are empty (and
neither the equality nor the containment short-circuit applies). -/
def calculate_similarity (text1 text2 : String) : Option ℚ :=
  if text1 = text2 then some 1
  else if pyIn text2 text1 || pyIn text1 text2 then some 0.95
  else
    let similarity := seqMatchScore text1 text2
    let words1 := wordSet text1
    let words2 := wordSet text2
    let m := max words1.length words2.length
    if m = 0 then none
    else some (similarity * 0.6 +
      ((words1.filter fun w => words2.contains w).length : ℚ) / (m : ℚ) * 0.4)

/-- Metadata extracted by `RobustIntentMatcher._extract_metadata`. -/
structure QueryMetadata where
  hasNumber : Bool
  hasQuestionWord : Bool
  hasTimeReference : Bool
  wordCount : ℕ
  numbers : List ℕ
  deriving DecidableEq, Repr

/-- Maximal digit runs of a character list (Python `re.findall(r'\d+', q)`);
`acc` is the current run, reversed. -/
def digitRuns : List Char → List Char → List (List Char)
  | [], acc => if acc = [] then [] else [acc.reverse]
  | c :: cs, acc =>
    if c.isDigit then digitRuns cs (c :: acc)
    else if acc = [] then digitRuns cs [] else acc.reverse :: digitRuns cs []

/-- Parse a digit run as a natural number. -/
def parseNatDigits (l : List Char) : ℕ :=
  l.foldl (fun n c => n * 10 + (c.toNat - '0'.toNat)) 0

/-- `RobustIntentMatcher._extract_metadata`. -/
def extract_metadata (query : String) : QueryMetadata :=
  { hasNumber := query.data.any Char.isDigit
    hasQuestionWord := ["what", "how", "why", "when", "where", "which", "who"].any
      fun w => pyIn w query
    hasTimeReference := ["daily", "weekly", "monthly", "yearly", "today",
      "yesterday", "last", "next"].any fun w => pyIn w query
    wordCount := (pySplit query).length
    numbers := (digitRuns query.data []).map parseNatDigits }

/-- Scan the pattern list of one intent category, updating the running
best `(intent, score)` pair; the update fires only on a strictly larger
score, so the first best entry in corpus order wins ties. `none`
propagates a similarity ZeroDivisionError. -/
def scanPatterns (expq : String) (intentName : String) :
    List (String × ℚ) → (String × ℚ) → Option (String × ℚ)
  | [], best => some best
  | (p, conf) :: rest, best =>
    match calculate_similarity expq p with
    | none => none
    | some sim =>
      let score := sim * conf
      scanPatterns expq intentName rest (if best.2 < score then (intentName, score) else best)

/-- Scan all intent categories in table order. -/
def scanIntents (expq : String) :
    List (String × List (String × ℚ)) → (String × ℚ) → Option (String × ℚ)
  | [], best => some best
  | (iname, ps) :: rest, best =>
    match scanPatterns expq iname ps best with
    | none => none
    | some best2 => scanIntents expq rest best2

/-- `RobustIntentMatcher.match_intent`: lowercase and strip the query,
expand synonyms, and take the highest `similarity * pattern_confidence`
over the whole corpus, starting from `("unknown", 0.0)`. -/
def match_intent (query : String) : Option (String × ℚ × QueryMetadata) :=
  let ql := pyStrip (pyLower query)
  let expq := expand_with_synonyms ql
  match scanIntents expq intentPatternsTable ("unknown", 0) with
  | none => none
  | some best => some (best.1, best.2, extract_metadata ql)

/-- Insert into a sorted list (kernel-computable stable insertion sort,
used to model the sorting done by pandas; verified claims never depend
on the order of ties). -/
def insertLe {α : Type} (le : α → α → Bool) (x : α) : List α → List α
  | [] => [x]
  | y :: ys => if le x y then x :: y :: ys else y :: insertLe le x ys

/-- Stable insertion sort with a Boolean comparator. -/
def sortLe {α : Type} (le : α → α → Bool) : List α → List α
  | [] => []
  | x :: xs => insertLe le x (sortLe le xs)

/-- Column payload: a pandas dtype with per-cell nullability (`none` is
NaN / NaT). -/
inductive ColData
  | nums (vals : List (Option ℚ))
  | strs (vals : List (Option String))
  | dates (vals : List (Option ℤ))
  deriving DecidableEq, Repr

/-- A named, typed DataFrame column. -/
structure Column where
  name : String
  data : ColData
  deriving DecidableEq, Repr

/-- A pandas DataFrame as the agent sees it: ordered, named, typed
columns (pandas guarantees all columns share the row count). -/
structure Dataset where
  cols : List Column
  deriving DecidableEq, Repr

/-- Number of cells in a column. -/
def ColData.size : ColData → ℕ
  | .nums v => v.length
  | .strs v => v.length
  | .dates v => v.length

/-- `len(df)`. -/
def Dataset.nrows (d : Dataset) : ℕ :=
  match d.cols with
  | [] => 0
  | c :: _ => c.data.size

/-- `df.columns`. -/
def Dataset.colNames (d : Dataset) : List String := d.cols.map fun c => c.name

/-- Find a column by name. -/
def Dataset.findCol (d : Dataset) (n : String) : Option Column :=
  d.cols.find? fun c => c.name == n

/-- `df.select_dtypes(include=[np.number]).columns`. -/
def Dataset.numericCols (d : Dataset) : List String :=
  (d.cols.filter fun c => match c.data with | .nums _ => true | _ => false).map fun c => c.name

/-- `df.select_dtypes(include=['object']).columns`. -/
def Dataset.objectCols (d : Dataset) : List String :=
  (d.cols.filter fun c => match c.data with | .strs _ => true | _ => false).map fun c => c.name

/-- Columns of datetime dtype. -/
def Dataset.datetimeColsDtype (d : Dataset) : List String :=
  (d.cols.filter fun c => match c.data with | .dates _ => true | _ => false).map fun c => c.name

/-- Cells of a numeric column (empty if the name is absent or not
numeric). -/
def Dataset.numData (d : Dataset) (n : String) : List (Option ℚ) :=
  match d.findCol n with
  | some c => match c.data with | .nums v => v | _ => []
  | none => []

/-- Cells of an object column. -/
def Dataset.strData (d : Dataset) (n : String) : List (Option String) :=
  match d.findCol n with
  | some c => match c.data with | .strs v => v | _ => []
  | none => []

/-- pandas `Series.sum()`: skipna, the empty sum is 0.0. -/
def pdSum (v : List (Option ℚ)) : ℚ := (v.filterMap id).sum

/-- pandas `Series.count()`: number of non-null cells. -/
def pdCount (v : List (Option ℚ)) : ℕ := (v.filterMap id).length

/-- Mean of a list of rationals; the empty mean is NaN in pandas,
modelled as 0 (no verified claim depends on that value). -/
def listMean (xs : List ℚ) : ℚ := if xs.length = 0 then 0 else xs.sum / (xs.length : ℚ)

/-- pandas `Series.mean()` (skipna). -/
def pdMean (v : List (Option ℚ)) : ℚ := listMean (v.filterMap id)

/-- pandas `Series.median()` (skipna; NaN on empty, modelled as 0). -/
def pdMedian (v : List (Option ℚ)) : ℚ :=
  let xs := sortLe (fun a b => decide (a ≤ b)) (v.filterMap id)
  let n := xs.length
  if n = 0 then 0
  else if n % 2 = 1 then xs.getD (n / 2) 0
  else (xs.getD (n / 2 - 1) 0 + xs.getD (n / 2) 0) / 2

/-- Integer-square-root approximation of the float square root; only used
by the model of `Series.std()`, whose value no verified claim depends
on. -/
def ratSqrtApprox (q : ℚ) : ℚ :=
  if q ≤ 0 then 0 else (Nat.sqrt (q.num.toNat * q.den) : ℚ) / (q.den : ℚ)

/-- pandas `Series.std()` (sample standard deviation, ddof = 1; NaN for
fewer than two values, modelled as 0). -/
def pdStd (v : List (Option ℚ)) : ℚ :=
  let xs := v.filterMap id
  if xs.length ≤ 1 then 0
  else ratSqrtApprox (((xs.map fun x => (x - listMean xs) ^ 2).sum) / ((xs.length - 1 : ℕ) : ℚ))

/-- pandas `Series.min()` (skipna; NaN on empty, modelled as 0). -/
def pdMin (v : List (Option ℚ)) : ℚ :=
  match v.filterMap id with
  | [] => 0
  | x :: xs => xs.foldl min x

/-- pandas `Series.max()`. -/
def pdMax (v : List (Option ℚ)) : ℚ :=
  match v.filterMap id with
  | [] => 0
  | x :: xs => xs.foldl max x

/-- Lexicographic code-point comparison of character lists (Python
string `<`, the order pandas uses to sort string group keys). -/
def charListLt : List Char → List Char → Bool
  | [], [] => false
  | [], _ :: _ => true
  | _ :: _, [] => false
  | c :: cs, d :: ds =>
    if c.toNat < d.toNat then true
    else if d.toNat < c.toNat then false
    else charListLt cs ds

/-- Python string `<` as a Boolean. -/
def strLtB (a b : String) : Bool := charListLt a.data b.data

/-- `df.groupby(cat)[num].sum()`: rows with a null key are dropped, keys
are sorted ascending (pandas groupby default `sort=True`), each group
sums its non-null values. -/
def groupBySum (keys : List (Option String)) (vals : List (Option ℚ)) :
    List (String × ℚ) :=
  let pairs := (keys.zip vals).filterMap fun p => p.1.map fun k => (k, p.2)
  let ks := sortLe (fun a b => !(strLtB b a)) (pairs.map fun p => p.1).dedup
  ks.map fun k => (k, ((pairs.filter fun p => p.1 == k).filterMap fun p => p.2).sum)

/-- `df.groupby(cat)[num].agg(['sum', 'mean', 'count'])` as
`(key, sum, mean, count)` rows, keys sorted ascending. -/
def groupByAgg (keys : List (Option String)) (vals : List (Option ℚ)) :
    List (String × ℚ × ℚ × ℕ) :=
  let pairs := (keys.zip vals).filterMap fun p => p.1.map fun k => (k, p.2)
  let ks := sortLe (fun a b => !(strLtB b a)) (pairs.map fun p => p.1).dedup
  ks.map fun k =>
    let g := (pairs.filter fun p => p.1 == k).filterMap fun p => p.2
    (k, g.sum, listMean g, g.length)

/-- `Series.sort_values(ascending=b)` on a key→sum list. pandas defaults
to an unstable quicksort; modelled with a stable sort, and no verified
claim depends on the order of equal values. -/
def sortByVal (ascending : Bool) (l : List (String × ℚ)) : List (String × ℚ) :=
  sortLe (fun a b => if ascending then decide (a.2 ≤ b.2) else decide (b.2 ≤ a.2)) l

/-- External collaborator model: `pd.to_datetime(x, errors='coerce')` on
a string cell. The repository treats the parser as a black box; modelled
as reading pure digit strings as date ordinals, anything else as NaT. -/
def strToDate (s : String) : Option ℤ :=
  if s.data ≠ [] ∧ s.data.all Char.isDigit then some (parseNatDigits s.data : ℤ) else none

/-- Collaborator model: numeric cells coerced to timestamps. -/
def numToDate (q : ℚ) : Option ℤ := some ⌊q⌋

/-- `pd.to_datetime(df[c], errors='coerce')` over a whole column. -/
def toDatetimeCol : ColData → List (Option ℤ)
  | .dates v => v
  | .strs v => v.map fun c => c.bind strToDate
  | .nums v => v.map fun c => c.bind numToDate

/-- Collaborator model for `dt.strftime('%Y-%m-%d')` on a modelled date
ordinal; no verified claim depends on the rendered text. -/
def dateToStr (z : ℤ) : String := toString z

/-- `df.groupby(date)[val].sum()` with date keys, chronological order. -/
def groupBySumZ (keys : List (Option ℤ)) (vals : List (Option ℚ)) :
    List (ℤ × ℚ) :=
  let pairs := (keys.zip vals).filterMap fun p => p.1.map fun k => (k, p.2)
  let ks := sortLe (fun a b => decide (a ≤ b)) (pairs.map fun p => p.1).dedup
  ks.map fun k => (k, ((pairs.filter fun p => p.1 == k).filterMap fun p => p.2).sum)

/-- The intent dict built by `SmartAnalyticsAgent._analyze_intent`
(`time_range` and `filters` are always left at their initial empty
values and are omitted). -/
structure Intent where
  question_type : String
  target_columns : List String
  operations : List String
  visualization_type : Option String
  sql_equivalent : String
  confidence : ℚ
  metadata : Option QueryMetadata
  deriving DecidableEq, Repr

/-- Values stored in the dispatcher's dynamic `results['data']` dict. -/
inductive RVal
  | num (q : ℚ)
  | str (s : String)
  | ranking (l : List (String × ℚ))
  | trendData (dates : List String) (values : List ℚ) (dateColumn valueColumn : String)
  | comparisonData (category metric : String) (segments : List (String × ℚ × ℚ × ℕ))
  | statsData (mean median std mn mx : ℚ)
  deriving DecidableEq, Repr

/-- `_execute_smart_analytics` result dict. -/
structure AnalyticsResult where
  rtype : String
  data : List (String × RVal)
  insights : List String
  deriving DecidableEq, Repr

/-- Dict lookup in a `results['data']` association list. -/
def lookupR (data : List (String × RVal)) (k : String) : Option RVal :=
  match data.find? fun p => p.1 == k with
  | some p => some p.2
  | none => none

/-- The column-name part of the summary stored by `load_data`
(`self.data_summary['columns']`); only the parts `ask` reads are
modelled. -/
structure DataSummary where
  numericCols : List String
  categoricalCols : List String
  datetimeCols : List String
  deriving DecidableEq, Repr

/-- The mutable state of a `SmartAnalyticsAgent` that `ask` touches:
`self.current_data`, `self.data_summary`, `self.conversation_context`. -/
structure AgentState where
  current_data : Option Dataset
  data_summary : Option DataSummary
  conversation_context : List (String × Intent)
  deriving DecidableEq, Repr

/-- Which branch of `_check_if_vague_or_irrelevant` fired; verification
instrumentation only, not a field of the Python dict. -/
inductive GateReason
  | greeting
  | offtopic
  | vaguePhrase
  | shortNoKeyword
  | accepted
  deriving DecidableEq, Repr

/-- The dict returned by `_check_if_vague_or_irrelevant`, plus the
`reason` tag recording the branch that produced it. -/
structure GateResult where
  is_vague : Bool
  guidance_message : String
  suggested_questions : List String
  reason : GateReason
  deriving DecidableEq, Repr

/-- `self.irrelevant_keywords` from `SmartAnalyticsAgent.__init__`. -/
def irrelevantKeywords : List String :=
  ["weather", "news", "sports", "politics", "recipe", "movie", "music",
   "game", "celebrity", "joke", "story", "poem", "song", "hello", "hi",
   "how are you", "thank you", "thanks", "bye", "goodbye"]

/-- `self.vague_patterns` from `SmartAnalyticsAgent.__init__`. -/
def vaguePatternsList : List String :=
  ["tell me something", "anything", "what can you do", "help",
   "what is this", "explain", "describe this", "tell me about"]

/-- The greeting list checked first by `_check_if_vague_or_irrelevant`. -/
def gateGreetings : List String :=
  ["hi", "hello", "hey", "thanks", "thank you", "bye", "goodbye"]

/-- The data keywords of `_check_if_vague_or_irrelevant`. -/
def gateDataKeywords : List String :=
  ["total", "sum", "average", "mean", "count", "how many", "show",
   "top", "bottom", "best", "worst", "trend", "forecast", "predict",
   "compare", "analysis", "revenue", "sales", "customer", "product"]

/-- Guidance text of the greeting branch. -/
def greetingGuidance : String :=
  "Hello! I\x27m your AI Analytics Assistant. I\x27m here to help you analyze your data!\n\nI can answer specific questions about your dataset. To get started, try asking about your data."

/-- Guidance text of the off-topic branch (interpolates the keyword). -/
def offtopicGuidance (keyword : String) : String :=
  "I appreciate your interest, but I\x27m specifically designed to analyze your **data**.\n\nI can\x27t help with " ++ keyword ++ "-related questions, but I\x27m excellent at analyzing your uploaded dataset!\n\n**Let me help you with your data instead.** Here are some questions I can answer:"

/-- Guidance text of the vague-phrase branch. -/
def vagueGuidance : String :=
  "I\x27d be happy to help! However, your question is a bit general.\n\nTo provide meaningful insights, I need a specific question about your data.\n\n**Here are some examples based on your dataset:**"

/-- Guidance text of the short-question branch (interpolates the raw
question). -/
def shortGuidance (question : String) : String :=
  "I see you asked: \"" ++ question ++ "\"\n\nI\x27m not sure how to analyze that with your current dataset. Could you please be more specific?\n\n**For example, you might ask:**"

/-- `SmartAnalyticsAgent._generate_suggested_questions`. -/
def generate_suggested_questions (st : AgentState) : List String :=
  match st.current_data, st.data_summary with
  | some _, some summary =>
    let numericCols := summary.numericCols
    let categoricalCols := summary.categoricalCols
    let dateCols := summary.datetimeCols
    let revenueCols := numericCols.filter fun c =>
      ["revenue", "sales", "amount", "total", "price"].any fun w => pyIn w (pyLower c)
    let productCols := categoricalCols.filter fun c =>
      ["product", "item", "category", "type"].any fun w => pyIn w (pyLower c)
    let segmentCols := categoricalCols.filter fun c =>
      ["region", "location", "segment", "group", "category"].any fun w => pyIn w (pyLower c)
    let customerCols := categoricalCols.filter fun c =>
      ["customer", "client", "user"].any fun w => pyIn w (pyLower c)
    let s1 := match revenueCols with
      | c :: _ => ["üí∞ What is the total " ++ pyReplace c "_" " " ++ "?"]
      | [] => []
    let s2 := match productCols, numericCols with
      | c :: _, _ :: _ => [" Show me the top 5 " ++ pyReplace c "_" " "]
      | _, _ => []
    let s3 := match segmentCols, numericCols with
      | c :: _, _ :: _ => ["üåç Compare " ++ pyReplace c "_" " " ++ " performance"]
      | _, _ => []
    let s4 := match dateCols, numericCols with
      | _ :: _, c :: _ => [" Show me trends in " ++ pyReplace c "_" " " ++ " over time"]
      | _, _ => []
    let s5 := match numericCols with
      | c :: _ => [" What is the average " ++ pyReplace c "_" " " ++ "?"]
      | [] => []
    let s6 := match customerCols with
      | c :: _ => ["üë• How many unique " ++ pyReplace c "_" " " ++ " do we have?"]
      | [] => []
    let suggestions := s1 ++ s2 ++ s3 ++ s4 ++ s5 ++ s6
    let suggestions := if suggestions.length < 3 then
        suggestions ++ [" Give me a summary of the data",
                        " What are the key statistics?",
                        " What insights can you find?"]
      else suggestions
    suggestions.take 6
  | _, _ =>
    ["What is the total revenue?",
     "Show me the top 5 products",
     "How have sales trended over time?"]

/-- `SmartAnalyticsAgent._check_if_vague_or_irrelevant`. The `reason`
field records which branch produced the result; everything else mirrors
the Python dict. -/
def check_if_vague_or_irrelevant (st : AgentState) (question : String) : GateResult :=
  let ql := pyStrip (pyLower question)
  if gateGreetings.contains ql then
    { is_vague := true
      guidance_message := greetingGuidance
      suggested_questions := generate_suggested_questions st
      reason := .greeting }
  else
    match irrelevantKeywords.find? fun k => pyIn k ql with
    | some keyword =>
      { is_vague := true
        guidance_message := offtopicGuidance keyword
        suggested_questions := generate_suggested_questions st
        reason := .offtopic }
    | none =>
      if (vaguePatternsList.any fun p => pyIn p ql) && decide (ql.length < 30) then
        { is_vague := true
          guidance_message := vagueGuidance
          suggested_questions := generate_suggested_questions st
          reason := .vaguePhrase }
      else
        let columnMentioned := match st.current_data with
          | some d => d.cols.any fun c =>
              pyIn (pyLower c.name) ql || pyIn (pyLower (pyReplace c.name "_" " ")) ql
          | none => false
        let hasDataKeyword := (gateDataKeywords.any fun k => pyIn k ql) || columnMentioned
        if decide ((pySplit ql).length < 5) && !hasDataKeyword then
          { is_vague := true
            guidance_message := shortGuidance question
            suggested_questions := generate_suggested_questions st
            reason := .shortNoKeyword }
        else
          { is_vague := false
            guidance_message := ""
            suggested_questions := []
            reason := .accepted }

/-- Python `', '.join(ws)`. -/
def joinComma : List String → String
  | [] => ""
  | [w] => w
  | w :: ws => w ++ ", " ++ joinComma ws

/-- Python `"\n\n".join(ws)`. -/
def joinNN : List String → String
  | [] => ""
  | [w] => w
  | w :: ws => w ++ "\n\n" ++ joinNN ws

/-- Plain concatenation of parts (`answer += part` loops). -/
def joinEmpty (l : List String) : String := l.foldl (fun a b => a ++ b) ""

/-- `SmartAnalyticsAgent._generate_sql_equivalent` (reads only
`question_type` and `target_columns` from the intent dict). -/
def generate_sql_equivalent (qtype : String) (targets : List String) : String :=
  if qtype == "aggregation" then
    let colsStr := joinComma ((targets.filter fun c => c ≠ "*").map fun col => "SUM(" ++ col ++ ")")
    "SELECT " ++ (if colsStr == "" then "COUNT(*)" else colsStr) ++ " FROM data"
  else if qtype == "ranking" then
    match targets with
    | t0 :: t1 :: _ =>
      "SELECT " ++ t0 ++ ", SUM(" ++ t1 ++ ") FROM data GROUP BY " ++ t0 ++
        " ORDER BY SUM(" ++ t1 ++ ") DESC LIMIT 5"
    | [t0] => "SELECT * FROM data ORDER BY " ++ t0 ++ " DESC LIMIT 5"
    | [] => "SELECT * FROM data ORDER BY value DESC LIMIT 5"
  else if qtype == "trend_analysis" then
    "SELECT date, SUM(value) FROM data GROUP BY date ORDER BY date"
  else
    "SELECT * FROM data"

/-- `SmartAnalyticsAgent._analyze_intent`: matcher result, keyword
override chain, column detection and inference, SQL rendering. `none`
propagates a matcher ZeroDivisionError (proved unreachable). -/
def analyze_intent (d : Dataset) (question : String) : Option Intent :=
  let ql := pyLower question
  match match_intent question with
  | none => none
  | some m =>
    let qtv : String × List String × Option String :=
      if ["total", "sum", "how much", "how many"].any fun w => pyIn w ql then
        ("aggregation", ["sum", "count"], some "metric_card")
      else if ["top", "best", "highest", "most", "bottom", "worst", "lowest"].any fun w => pyIn w ql then
        ("ranking", ["groupby", "sort"], some "bar_chart")
      else if ["trend", "over time", "time series", "change"].any fun w => pyIn w ql then
        ("trend_analysis", ["time_series", "trend"], some "line_chart")
      else if ["why", "reason", "cause", "drop", "decrease", "increase"].any fun w => pyIn w ql then
        ("diagnostic", ["root_cause", "comparison", "breakdown"], some "multiple")
      else if ["forecast", "predict", "future", "next"].any fun w => pyIn w ql then
        ("predictive", ["forecast", "prediction"], some "forecast_chart")
      else if ["recommend", "should", "optimize", "improve"].any fun w => pyIn w ql then
        ("prescriptive", ["optimization", "recommendation"], some "comparison")
      else if ["compare", "versus", "vs", "between", "difference"].any fun w => pyIn w ql then
        ("comparison", ["compare", "segment"], some "grouped_bar")
      else if ["average", "mean", "median"].any fun w => pyIn w ql then
        ("statistics", ["mean", "median", "stats"], some "distribution")
      else (m.1, [], none)
    let targets0 := d.colNames.filter fun c =>
      pyIn (pyLower c) ql || pyIn (pyLower (pyReplace c "_" " ")) ql
    let targets :=
      if targets0 = [] then
        (if ["revenue", "sales", "money", "price"].any fun w => pyIn w ql then
          (d.colNames.filter fun c =>
            pyIn "revenue" (pyLower c) || pyIn "sales" (pyLower c) || pyIn "price" (pyLower c)).take 1
         else []) ++
        (if ["product", "item"].any fun w => pyIn w ql then
          (d.colNames.filter fun c =>
            pyIn "product" (pyLower c) || pyIn "item" (pyLower c)).take 1
         else []) ++
        (if ["customer", "client", "user"].any fun w => pyIn w ql then
          (d.colNames.filter fun c =>
            pyIn "customer" (pyLower c) || pyIn "client" (pyLower c) || pyIn "user" (pyLower c)).take 1
         else []) ++
        (if ["region", "location", "area"].any fun w => pyIn w ql then
          (d.colNames.filter fun c =>
            pyIn "region" (pyLower c) || pyIn "location" (pyLower c)).take 1
         else [])
      else targets0
    some { question_type := qtv.1
           target_columns := targets
           operations := qtv.2.1
           visualization_type := qtv.2.2
           sql_equivalent := generate_sql_equivalent qtv.1 targets
           confidence := m.2.1
           metadata := some m.2.2 }

/-- The `daily` series of the trend strategy: convert the date column
(`pd.to_datetime(..., errors='coerce')`), drop NaT rows, group the value
column by date in chronological order. Only reached when the value
column differs from the date column: when they coincide the
`groupby(date_col)[value_col].sum()` call sums the datetime-converted
column and pandas raises before `daily` exists (modelled as `none` in
`execute_smart_analytics`). -/
def trendDaily (d : Dataset) (dc vc : String) : List (ℤ × ℚ) :=
  let dvals := match d.findCol dc with
    | some c => toDatetimeCol c.data
    | none => []
  groupBySumZ dvals (d.numData vc)

/-- The `date_cols` list of the trend strategy: datetime-dtype columns
and columns whose lowered name contains "date". -/
def trendDateCols (d : Dataset) : List String :=
  (d.cols.filter fun c =>
    (match c.data with | .dates _ => true | _ => false) || pyIn "date" (pyLower c.name)).map
      fun c => c.name

/-- The relative change (`change_pct`) of the second-half mean of the
daily series against the first-half mean; 0 when the first-half mean is
not positive (the guard in the source). -/
def trendChangePct (d : Dataset) (dc vc : String) : ℚ :=
  let daily := trendDaily d dc vc
  let values := daily.map fun p => p.2
  let firstHalf := listMean (values.take (daily.length / 2))
  let secondHalf := listMean (values.drop (daily.length / 2))
  if 0 < firstHalf then (secondHalf - firstHalf) / firstHalf * 100 else 0

/-- `SmartAnalyticsAgent._execute_smart_analytics` (the analytics
dispatcher). `none` models the uncaught `TypeError` of the trend
strategy: when the first date-named column (`date_cols[0]`) is also the
first numeric column (`num_cols[0]`) — a numeric column whose name
contains "date", such as `update_count` — the code converts it with
`pd.to_datetime(..., errors='coerce')` and then
`groupby(date_col)[value_col].sum()` sums datetime64 values, which
pandas rejects. No other path of the dispatcher raises. -/
def execute_smart_analytics (intent : Intent) (question : String) (d : Dataset) :
    Option AnalyticsResult :=
  let qtype := intent.question_type
  if qtype == "aggregation" then
    let entries := intent.target_columns.flatMap fun col =>
      if d.numericCols.contains col then
        [(col ++ "_total", RVal.num (pdSum (d.numData col))),
         (col ++ "_average", RVal.num (pdMean (d.numData col))),
         (col ++ "_count", RVal.num ((pdCount (d.numData col) : ℚ)))]
      else []
    let entries := if entries = [] then [("total_records", RVal.num (d.nrows : ℚ))] else entries
    some ⟨qtype, entries, []⟩
  else if qtype == "ranking" then
    let catCol := match intent.target_columns.find? fun c => d.objectCols.contains c with
      | some c => some c
      | none => d.objectCols.head?
    let numCol := match intent.target_columns.find? fun c => d.numericCols.contains c with
      | some c => some c
      | none => d.numericCols.head?
    match catCol, numCol with
    | some cc, some nc =>
      let isBottom := ["bottom", "worst", "lowest"].any fun w => pyIn w (pyLower question)
      let grouped := groupBySum (d.strData cc) (d.numData nc)
      let top5 := (sortByVal isBottom grouped).take 5
      some ⟨qtype,
       [("ranking", RVal.ranking top5),
        ("category_column", RVal.str cc),
        ("value_column", RVal.str nc),
        ("direction", RVal.str (if isBottom then "bottom" else "top"))], []⟩
    | _, _ => some ⟨qtype, [], []⟩
  else if qtype == "trend_analysis" then
    match trendDateCols d, d.numericCols with
    | dc :: _, vc :: _ =>
      if vc == dc then none
      else if 1 < (trendDaily d dc vc).length then
        some ⟨qtype,
         [("trend", RVal.trendData ((trendDaily d dc vc).map fun p => dateToStr p.1)
             ((trendDaily d dc vc).map fun p => p.2) dc vc),
          ("trend_direction", RVal.str
             (if 5 < trendChangePct d dc vc then "increasing"
              else if trendChangePct d dc vc < -5 then "decreasing" else "stable")),
          ("trend_change_pct", RVal.num (trendChangePct d dc vc))], []⟩
      else
        some ⟨qtype,
         [("trend", RVal.trendData ((trendDaily d dc vc).map fun p => dateToStr p.1)
             ((trendDaily d dc vc).map fun p => p.2) dc vc)], []⟩
    | _, _ => some ⟨qtype, [], []⟩
  else if qtype == "comparison" then
    match d.objectCols, d.numericCols with
    | cc :: _, nc :: _ =>
      some ⟨qtype,
       [("comparison", RVal.comparisonData cc nc (groupByAgg (d.strData cc) (d.numData nc)))], []⟩
    | _, _ => some ⟨qtype, [], []⟩
  else if qtype == "statistics" then
    some ⟨qtype,
     d.numericCols.map fun col =>
       (col, RVal.statsData (pdMean (d.numData col)) (pdMedian (d.numData col))
         (pdStd (d.numData col)) (pdMin (d.numData col)) (pdMax (d.numData col))), []⟩
  else some ⟨qtype, [], []⟩

/-- Lookup in the data dict of a dispatcher run that returned (`none`
when the dispatcher raised or when the key is absent). -/
def lookupE (r : Option AnalyticsResult) (k : String) : Option RVal :=
  match r with
  | none => none
  | some a => lookupR a.data k

/-- The raise condition of the trend strategy: the dataset has a
date-named (or datetime-dtype) column and a numeric column, and the
first of each is the same column. -/
def dateTrapped (d : Dataset) : Bool :=
  match trendDateCols d, d.numericCols with
  | dc :: _, vc :: _ => vc == dc
  | _, _ => false

/-- A state whose loaded dataset (if any) cannot hit the trend-strategy
raise. -/
def dateSafe (st : AgentState) : Bool :=
  match st.current_data with
  | some d => !dateTrapped d
  | none => true

/-- A plotly figure modelled by its data contract: either an x/y series
(bar, line, comparison first trace) or the box-plot column list of the
distribution chart; cosmetic styling is dropped. -/
inductive FigData
  | xy (x : List String) (y : List ℚ)
  | boxes (cols : List String)
  deriving DecidableEq, Repr

/-- One entry of the `visualizations` list built by
`_auto_generate_charts`. -/
structure VizItem where
  vtype : String
  figure : Option FigData
  title : String
  metricsData : List (String × RVal)
  deriving DecidableEq, Repr

/-- `SmartAnalyticsAgent._create_bar_chart`: its `try/except` returns
`None` on any failure, including a wrongly shaped `ranking` value. -/
def create_bar_chart (data : List (String × RVal)) : Option VizItem :=
  match lookupR data "ranking" with
  | some (.ranking l) =>
    if l = [] then none
    else some { vtype := "bar_chart"
                figure := some (.xy (l.map fun p => p.1) (l.map fun p => p.2))
                title := "Top Performers Analysis"
                metricsData := [] }
  | _ => none

/-- `SmartAnalyticsAgent._create_line_chart`. -/
def create_line_chart (dates : List String) (values : List ℚ) : Option VizItem :=
  if dates = [] || values = [] then none
  else some { vtype := "line_chart"
              figure := some (.xy dates values)
              title := "Trend Analysis"
              metricsData := [] }

/-- `SmartAnalyticsAgent._create_comparison_chart`: the first trace of
the grouped figure is the per-group sum (the second, the mean, is never
read back by `ask`). -/
def create_comparison_chart (_category : String) (segments : List (String × ℚ × ℚ × ℕ)) :
    Option VizItem :=
  if segments = [] then none
  else some { vtype := "comparison_chart"
              figure := some (.xy (segments.map fun s => s.1) (segments.map fun s => s.2.1))
              title := "Segment Comparison"
              metricsData := [] }

/-- `SmartAnalyticsAgent._create_distribution_chart`: keeps the first five
dict-valued stats entries as box traces; always returns a chart dict. -/
def create_distribution_chart (data : List (String × RVal)) : Option VizItem :=
  some { vtype := "distribution"
         figure := some (.boxes (((data.take 5).filter fun p =>
           match p.2 with | .statsData _ _ _ _ _ => true | _ => false).map fun p => p.1))
         title := "Statistical Summary"
         metricsData := [] }

/-- `SmartAnalyticsAgent._auto_generate_charts`. -/
def auto_generate_charts (intent : Intent) (analytics : AnalyticsResult) : List VizItem :=
  let data := analytics.data
  match intent.visualization_type with
  | none => []
  | some vt =>
    if vt == "bar_chart" && (lookupR data "ranking").isSome then
      match create_bar_chart data with
      | some c => [c]
      | none => []
    else if vt == "line_chart" && (lookupR data "trend").isSome then
      match lookupR data "trend" with
      | some (.trendData dates values _ _) =>
        match create_line_chart dates values with
        | some c => [c]
        | none => []
      | _ => []
    else if vt == "grouped_bar" && (lookupR data "comparison").isSome then
      match lookupR data "comparison" with
      | some (.comparisonData cat _ segs) =>
        match create_comparison_chart cat segs with
        | some c => [c]
        | none => []
      | _ => []
    else if vt == "distribution" && decide (0 < data.length) then
      match create_distribution_chart data with
      | some c => [c]
      | none => []
    else if vt == "metric_card" then
      [{ vtype := "metrics", figure := none, title := "", metricsData := data }]
    else []

/-- The dashboard `chart_data` dict built at the end of `ask` from the
first visualization. -/
structure ChartData where
  ctype : String
  title : String
  x : List String
  y : List ℚ
  x_label : String
  y_label : String
  deriving DecidableEq, Repr

/-- The `chart_data` extraction at the end of `SmartAnalyticsAgent.ask`:
only bar, line and comparison charts with a figure are converted. -/
def chartDataOf (visualizations : List VizItem) : Option ChartData :=
  match visualizations with
  | [] => none
  | viz :: _ =>
    match viz.figure with
    | some (.xy x y) =>
      if viz.vtype == "bar_chart" then
        some ⟨"bar", viz.title, x, y, "Category", "Value"⟩
      else if viz.vtype == "line_chart" then
        some ⟨"line", viz.title, x, y, "Date", "Value"⟩
      else if viz.vtype == "comparison_chart" then
        some ⟨"bar", viz.title, x, y, "Category", "Value"⟩
      else none
    | _ => none

/-- Fallback rendering of an `RVal` interpolated into an f-string;
only reachable on wrongly shaped data. -/
def rvalAsStr : RVal → String
  | .str s => s
  | .num q => pyFloatStr q
  | _ => ""

/-- Approximate model of `json.dumps(value)` for one `RVal`; only the
catch-all template branch uses it and no verified claim depends on its
text. -/
def jsonOfRVal : RVal → String
  | .num q => pyFloatStr q
  | .str s => "\"" ++ s ++ "\""
  | .ranking l =>
    "\x7b" ++ joinComma (l.map fun p => "\"" ++ p.1 ++ "\": " ++ pyFloatStr p.2) ++ "\x7d"
  | .trendData dates values dc vc =>
    "\x7b\"dates\": [" ++ joinComma (dates.map fun s => "\"" ++ s ++ "\"") ++
      "], \"values\": [" ++ joinComma (values.map pyFloatStr) ++
      "], \"date_column\": \"" ++ dc ++ "\", \"value_column\": \"" ++ vc ++ "\"\x7d"
  | .comparisonData cat met segs =>
    "\x7b\"category\": \"" ++ cat ++ "\", \"metric\": \"" ++ met ++
      "\", \"segments\": [" ++
      joinComma (segs.map fun s =>
        "\x7b\"" ++ cat ++ "\": \"" ++ s.1 ++ "\", \"sum\": " ++ pyFloatStr s.2.1 ++
        ", \"mean\": " ++ pyFloatStr s.2.2.1 ++ ", \"count\": " ++ toString s.2.2.2 ++ "\x7d") ++
      "]\x7d"
  | .statsData mean median std mn mx =>
    "\x7b\"mean\": " ++ pyFloatStr mean ++ ", \"median\": " ++ pyFloatStr median ++
      ", \"std\": " ++ pyFloatStr std ++ ", \"min\": " ++ pyFloatStr mn ++
      ", \"max\": " ++ pyFloatStr mx ++ "\x7d"

/-- Approximate model of `json.dumps(data, indent=2)` (indentation not
replicated; used only by the catch-all template branch). -/
def jsonDumpsData (data : List (String × RVal)) : String :=
  "\x7b" ++ joinComma (data.map fun p => "\"" ++ p.1 ++ "\": " ++ jsonOfRVal p.2) ++ "\x7d"

/-- One step of the aggregation part loop of
`_generate_template_response`: keys containing "total" render a total
line, keys containing "average" an average line, anything else is
skipped; a non-float value under such a key is the raising path
(`none`). -/
def aggPartStep (acc : Option (List String)) (kv : String × RVal) : Option (List String) :=
  match acc with
  | none => none
  | some parts =>
    if pyIn "total" kv.1 then
      match kv.2 with
      | .num v =>
        some (parts ++
          [if 100 < v then
            "**Total " ++ pyTitle (pyReplace (pyReplace kv.1 "_total" "") "_" " ") ++
              ":** $" ++ pyFmtComma 2 v
           else
            "**Total " ++ pyTitle (pyReplace (pyReplace kv.1 "_total" "") "_" " ") ++
              ":** " ++ pyFmtComma 0 v])
      | _ => none
    else if pyIn "average" kv.1 then
      match kv.2 with
      | .num v =>
        some (parts ++
          [if 100 < v then
            "**Average " ++ pyTitle (pyReplace (pyReplace kv.1 "_average" "") "_" " ") ++
              ":** $" ++ pyFmtComma 2 v
           else
            "**Average " ++ pyTitle (pyReplace (pyReplace kv.1 "_average" "") "_" " ") ++
              ":** " ++ pyFmtComma 2 v])
      | _ => none
    else some parts

/-- The default return of `_generate_template_response`. -/
def templateDefault (data : List (String × RVal)) : String :=
  "**Analysis Complete:**\n\n" ++ jsonDumpsData data

/-- `SmartAnalyticsAgent._generate_template_response` (the deterministic
response composer). `none` models the `TypeError`/`AttributeError`
Python would raise on a wrongly shaped `results['data']` value, which
the dispatcher never produces (proved below). -/
def generate_template_response (_question : String) (_intent : Intent)
    (analytics : AnalyticsResult) : Option String :=
  let data := analytics.data
  if analytics.rtype == "aggregation" then
    match data.foldl aggPartStep (some []) with
    | none => none
    | some parts =>
      let parts := match lookupR data "total_records" with
        | some (.num n) => parts ++ ["**Total Records:** " ++ pyFmtComma 0 n]
        | some v => parts ++ ["**Total Records:** " ++ rvalAsStr v]
        | none => parts
      some (if parts = [] then "Analytics completed successfully." else joinNN parts)
  else if analytics.rtype == "ranking" then
    match lookupR data "ranking" with
    | some (.ranking (h :: t)) =>
      let catCol := match lookupR data "category_column" with
        | some v => rvalAsStr v
        | none => "Item"
      let direction := match lookupR data "direction" with
        | some v => rvalAsStr v
        | none => "top"
      some ("**" ++ pyTitle direction ++ " " ++ toString (h :: t).length ++ " " ++ catCol ++
        ":**\n\n" ++
        joinEmpty (((h :: t).enum).map fun p =>
          toString (p.1 + 1) ++ ". **" ++ p.2.1 ++ "**: $" ++ pyFmtComma 2 p.2.2 ++ "\n"))
    | some (.ranking []) => some (templateDefault data)
    | none => some (templateDefault data)
    | some _ => none
  else if analytics.rtype == "trend_analysis" then
    match lookupR data "trend" with
    | some (.trendData dates _ _ vc) =>
      let direction := match lookupR data "trend_direction" with
        | some v => rvalAsStr v
        | none => "stable"
      let change := match lookupR data "trend_change_pct" with
        | some (.num q) => q
        | _ => 0
      some ("**Trend Analysis for " ++ vc ++ ":**\n\n**Direction:** " ++ pyTitle direction ++
        " (" ++ pyFmtSigned1 change ++ "% change)\n\nThe data shows a **" ++ direction ++
        "** trend over the analyzed period. The " ++ vc ++ " has " ++
        (if 0 < change then "increased" else if change < 0 then "decreased"
         else "remained stable") ++
        " by approximately " ++ pyFmtFixed 1 |change| ++
        "%.\n\n**Data points analyzed:** " ++ toString dates.length)
    | some _ => none
    | none => some (templateDefault data)
  else if analytics.rtype == "comparison" then
    match lookupR data "comparison" with
    | some (.comparisonData cat _ segs) =>
      some ("**Comparison by " ++ cat ++ ":**\n\n" ++
        joinEmpty ((segs.take 5).map fun s =>
          "- **" ++ s.1 ++ "**: " ++ pyFloatStr s.2.1 ++ "\n"))
    | some _ => none
    | none => some (templateDefault data)
  else
    some (templateDefault data)

/-- `SmartAnalyticsAgent._generate_strategic_recommendations`; `none`
models the raising path on wrongly shaped values (unreachable from the
dispatcher). -/
def generate_strategic_recommendations (_intent : Intent) (analytics : AnalyticsResult) :
    Option (List String) :=
  let data := analytics.data
  if analytics.rtype == "ranking" then
    match lookupR data "ranking" with
    | some (.ranking (h :: t)) =>
      some [" Prioritize resources for " ++ h.1 ++ " (top performer)",
            " Investigate underperformance of " ++ ((h :: t).getLast (List.cons_ne_nil h t)).1,
            " Consider reallocating budget from low to high performers"]
    | some (.ranking []) => some []
    | none => some []
    | some _ => none
  else if analytics.rtype == "trend_analysis" then
    let change := match lookupR data "trend_change_pct" with
      | some (.num q) => q
      | _ => 0
    if lookupR data "trend_direction" == some (.str "decreasing") then
      some ["üî¥ Urgent: Address " ++ pyFmtFixed 1 |change| ++ "% decline with corrective actions",
            " Conduct root cause analysis to identify drivers"]
    else if lookupR data "trend_direction" == some (.str "increasing") then
      some [" Capitalize on positive " ++ pyFmtFixed 1 change ++ "% growth trend",
            " Consider scaling successful strategies"]
    else
      some [" Monitor closely for emerging patterns"]
  else if analytics.rtype == "aggregation" then
    some [" Regular monitoring recommended",
          " Set up automated alerts for significant changes"]
  else
    some []

/-- `SmartAnalyticsAgent._calculate_confidence` (the confidence scorer):
base confidence plus data-quality bonuses, capped at 0.99 and rounded to
two decimals. -/
def calculate_confidence (st : AgentState) (intent : Intent) (analytics : AnalyticsResult) : ℚ :=
  let rowBonus : ℚ := match st.current_data with
    | some d => if 30 ≤ d.nrows then 0.1 else if 10 ≤ d.nrows then 0.05 else 0
    | none => 0
  let dataBonus : ℚ := if 0 < analytics.data.length then 0.1 else 0
  let colBonus : ℚ := if intent.target_columns ≠ [] then 0.05 else 0
  let finalConfidence := min 0.99 (intent.confidence + (rowBonus + dataBonus + colBonus))
  (roundHalfEven (finalConfidence * 100) : ℚ) / 100

/-- The dict returned by `SmartAnalyticsAgent.ask`. Keys only some paths
include are `Option`s (`none` = key absent); the empty `data` dict of the
no-data and gate paths is `none`; `execution_time` (wall clock) is
external nondeterminism and is not modelled. -/
structure Envelope where
  answer : String
  dataRes : Option AnalyticsResult
  visualizations : List VizItem
  chart_data : Option ChartData
  confidence : ℚ
  recommendations : List String
  sql_equivalent : Option String
  is_vague : Option Bool
  source : Option String
  intent : Option Intent
  deriving DecidableEq, Repr

/-- The envelope `ask` returns when no dataset is loaded. -/
def noDataEnvelope : Envelope :=
  { answer := "Please upload data first.", dataRes := none, visualizations := [],
    chart_data := none, confidence := 0, recommendations := [],
    sql_equivalent := none, is_vague := none, source := none, intent := none }

/-- `SmartAnalyticsAgent.ask` on the deterministic tier
(`use_openai = False`), as a state transformer. `none` models an
uncaught exception escaping `ask`; the method installs no handler, so
the trend-strategy `TypeError` of the dispatcher propagates out
(reachable — see the C1 theorem), while the matcher paths are proved
total below. -/
def ask (st : AgentState) (question : String) : Option (Envelope × AgentState) :=
  match st.current_data with
  | none => some (noDataEnvelope, st)
  | some d =>
    let vagueCheck := check_if_vague_or_irrelevant st question
    if vagueCheck.is_vague then
      some ({ answer := vagueCheck.guidance_message, dataRes := none, visualizations := [],
              chart_data := none, confidence := 0.3,
              recommendations := vagueCheck.suggested_questions,
              sql_equivalent := some "", is_vague := some true, source := none,
              intent := none }, st)
    else
      match analyze_intent d question with
      | none => none
      | some intent =>
        match execute_smart_analytics intent question d with
        | none => none
        | some analytics =>
        let visualizations := auto_generate_charts intent analytics
        match generate_template_response question intent analytics with
        | none => none
        | some answer =>
          match generate_strategic_recommendations intent analytics with
          | none => none
          | some recommendations =>
            some ({ answer := answer
                    dataRes := some analytics
                    visualizations := visualizations
                    chart_data := chartDataOf visualizations
                    confidence := calculate_confidence st intent analytics
                    recommendations := recommendations
                    sql_equivalent := some intent.sql_equivalent
                    is_vague := none
                    source := none
                    intent := some intent },
                  { st with conversation_context :=
                      st.conversation_context ++ [(question, intent)] })

/-- The similarity metric as the specification words it (§4.2 step 3):
exact equality 1.0, substring containment 0.95, otherwise 60%
character-sequence ratio plus 40% word-overlap ratio
`|intersection| / max(|A|, |B|)`. Written from the spec, to be compared
with `calculate_similarity` from the code. -/
def spec_similarity (text1 text2 : String) : ℚ :=
  if text1 = text2 then 1
  else if pyIn text2 text1 || pyIn text1 text2 then 0.95
  else
    0.6 * seqMatchScore text1 text2 +
      0.4 * (((wordSet text1).filter fun w => (wordSet text2).contains w).length : ℚ) /
        (max (wordSet text1).length (wordSet text2).length : ℚ)

/-- Boolean form of the chart shape invariant: whenever `ask` returns a
chart_data whose kind is not metrics, its x and y have equal length. -/
def chartShapeOk : Option (Envelope × AgentState) → Bool
  | none => true
  | some (e, _) =>
    match e.chart_data with
    | none => true
    | some c => c.ctype == "metrics" || c.x.length == c.y.length

/-- Test fixture: categorical groups A, B, C whose Revenue group sums are
300, 500 and 100. -/
def rankDataset : Dataset :=
  ⟨[⟨"Category", .strs [some "A", some "B", some "A", some "C", some "B"]⟩,
    ⟨"Revenue", .nums [some 100, some 200, some 200, some 100, some 300]⟩]⟩

/-- Test fixture: the two-row product/revenue dataset of spec §8. -/
def aggDataset : Dataset :=
  ⟨[⟨"product", .strs [some "X", some "Y"]⟩,
    ⟨"revenue", .nums [some 100, some 400]⟩]⟩

/-- Agent state with `rankDataset` loaded (summary as `load_data` builds
it). -/
def rankState : AgentState :=
  ⟨some rankDataset, some ⟨["Revenue"], ["Category"], []⟩, []⟩

/-- Agent state with no dataset loaded. -/
def emptyState : AgentState := ⟨none, none, []⟩

/-- Test fixture: a ranking intent that references no column. -/
def rankIntent : Intent :=
  ⟨"ranking", [], ["groupby", "sort"], some "bar_chart",
   "SELECT * FROM data ORDER BY value DESC LIMIT 5", 0.9, none⟩

/-- Test fixture: an aggregation intent that references no column. -/
def aggIntent : Intent :=
  ⟨"aggregation", [], ["sum", "count"], some "metric_card",
   "SELECT COUNT(*) FROM data", 0.9, none⟩

/-- Test fixture: a dataset whose single column is the numeric
"update_count". Its lowered name contains "date" (upDATE), so it is both
the first date-named column and the first numeric column of the trend
strategy. -/
def dateTrapDataset : Dataset :=
  ⟨[⟨"update_count", .nums [some 1, some 2, some 3]⟩]⟩

/-- Agent state with `dateTrapDataset` loaded (summary as `load_data`
builds it). -/
def dateTrapState : AgentState :=
  ⟨some dateTrapDataset, some ⟨["update_count"], [], []⟩, []⟩

/-- The data-shape facts the composer and the recommendation generator
rely on, per result category. -/
def DispatchOk (r : AnalyticsResult) : Prop :=
  (r.rtype = "aggregation" → ∀ kv ∈ r.data, ∃ x, kv.2 = RVal.num x) ∧
  (r.rtype = "ranking" → ∀ v, lookupR r.data "ranking" = some v → ∃ l, v = RVal.ranking l) ∧
  (r.rtype = "trend_analysis" → ∀ v, lookupR r.data "trend" = some v →
    ∃ a b c dd, v = RVal.trendData a b c dd) ∧
  (r.rtype = "comparison" → ∀ v, lookupR r.data "comparison" = some v →
    ∃ a b c, v = RVal.comparisonData a b c)

/-- C10: for every question asked before any dataset has been loaded,
`ask` returns, without raising, the please-upload envelope with
confidence 0.0, and performs no analytics, chart generation or
conversation-context update: the agent state is returned unchanged. -/
theorem c10_no_data_envelope (st : AgentState) (q : String)
    (h : st.current_data = none) :
    ask st q = some (noDataEnvelope, st) ∧
    noDataEnvelope.answer = "Please upload data first." ∧
    noDataEnvelope.confidence = 0 := by
  refine ⟨?_, rfl, rfl⟩
  unfold ask
  rw [h]

/-- Witness for C10 at a concrete state and question. -/
theorem c10_no_data_envelope_witness :
    emptyState.current_data = none ∧
    (ask emptyState "what is the total revenue?" = some (noDataEnvelope, emptyState) ∧
     noDataEnvelope.answer = "Please upload data first." ∧
     noDataEnvelope.confidence = 0) :=
  ⟨rfl, c10_no_data_envelope emptyState "what is the total revenue?" rfl⟩

/-- C3 counterexample: for the exact question "hi" with a dataset
loaded, the envelope has `is_vague = true` but carries no source field at
all, so its source is not "gate" as the claim states. -/
theorem c3_gate_counterexample :
    (ask rankState "hi").map (fun p => (p.1.source, p.1.is_vague)) =
      some (none, some true) := by
  decide

/-- C3 (amended): for "hi", "hello", "thanks" (case-insensitive,
trimmed) with a dataset loaded, `ask` returns the greeting-gate envelope
with `is_vague = true`, confidence 0.3 and the gate guidance answer; the
envelope has no source field (`source = none`), not `source = "gate"`. -/
theorem c3_greetings_gate (st : AgentState) (q : String) (d : Dataset)
    (hd : st.current_data = some d)
    (hq : pyStrip (pyLower q) = "hi" ∨ pyStrip (pyLower q) = "hello" ∨
          pyStrip (pyLower q) = "thanks") :
    (ask st q).map
        (fun p => (p.1.is_vague, p.1.source, p.1.confidence, p.1.answer, p.2)) =
      some (some true, none, 0.3, greetingGuidance, st) := by
  have hg : gateGreetings.contains (pyStrip (pyLower q)) = true := by
    rcases hq with h | h | h <;> rw [h] <;> decide
  unfold ask
  rw [hd]
  unfold check_if_vague_or_irrelevant
  rw [if_pos hg]
  rfl

/-- Witness for C3 (amended) at a concrete state and question. -/
theorem c3_greetings_gate_witness :
    (pyStrip (pyLower "  Hello ") = "hi" ∨ pyStrip (pyLower "  Hello ") = "hello" ∨
     pyStrip (pyLower "  Hello ") = "thanks") ∧
    (ask rankState "  Hello ").map
        (fun p => (p.1.is_vague, p.1.source, p.1.confidence, p.1.answer, p.2)) =
      some (some true, none, 0.3, greetingGuidance, rankState) :=
  ⟨Or.inr (Or.inl (by decide)),
   c3_greetings_gate rankState "  Hello " rankDataset rfl (Or.inr (Or.inl (by decide)))⟩

/-- C7 counterexample: the six-word question "help me u i o p" contains
the vague phrase "help", has word count 6 (not below the claimed
threshold of 6), and is still rejected by the gate, because the code
thresholds on character length < 30, not word count. -/
theorem c7_vague_counterexample :
    (check_if_vague_or_irrelevant rankState "help me u i o p").is_vague = true ∧
    (check_if_vague_or_irrelevant rankState "help me u i o p").reason =
      GateReason.vaguePhrase ∧
    (pySplit (pyStrip (pyLower "help me u i o p"))).length = 6 ∧
    (vaguePatternsList.any fun p => pyIn p (pyStrip (pyLower "help me u i o p"))) = true := by
  refine ⟨?_, ?_, ?_, ?_⟩ <;> decide

/-- C7 (amended): the vague-phrase rule of the gate rejects a question
only if the lowered, stripped question is shorter than 30 characters;
the threshold is on character count, not on a 6-word count. -/
theorem c7_vague_phrase_charlen (st : AgentState) (q : String)
    (h : (check_if_vague_or_irrelevant st q).reason = GateReason.vaguePhrase) :
    (pyStrip (pyLower q)).length < 30 ∧
    (vaguePatternsList.any fun p => pyIn p (pyStrip (pyLower q))) = true := by
  simp only [check_if_vague_or_irrelevant] at h
  split at h
  · exact absurd h (by simp)
  · split at h
    · exact absurd h (by simp)
    · split at h
      · rename_i hcond
        rw [Bool.and_eq_true] at hcond
        exact ⟨by simpa using hcond.2, hcond.1⟩
      · split at h
        · exact absurd h (by simp)
        · exact absurd h (by simp)

/-- Witness for C7 (amended) at a concrete state and question. -/
theorem c7_vague_phrase_charlen_witness :
    (check_if_vague_or_irrelevant rankState "help").reason = GateReason.vaguePhrase ∧
    ((pyStrip (pyLower "help")).length < 30 ∧
     (vaguePatternsList.any fun p => pyIn p (pyStrip (pyLower "help"))) = true) :=
  ⟨by decide, c7_vague_phrase_charlen rankState "help" (by decide)⟩

/-- C5 counterexample: on the whitespace-only pair `" \t"` / `"\n"`
(unequal, neither contained in the other) both word sets are empty and
the code divides by zero (`ZeroDivisionError`), modelled as `none`; the
similarity function does not return the blended value the claim
states. -/
theorem c5_similarity_counterexample :
    calculate_similarity " \t" "\n" = none := by
  decide

/-- C5 (amended): on every pair of strings at least one of which
contains a non-whitespace word, the similarity is exactly the spec
formula: 1.0 on equality, 0.95 on substring containment, otherwise
0.6 times the difflib character ratio plus 0.4 times the word-overlap
ratio; when both word sets are empty (and no short-circuit applies) the
code raises instead of returning. -/
theorem c5_similarity_formula (t1 t2 : String)
    (h : (wordSet t1).length ≠ 0 ∨ (wordSet t2).length ≠ 0) :
    calculate_similarity t1 t2 = some (spec_similarity t1 t2) := by
  unfold calculate_similarity spec_similarity
  split
  · rfl
  · split
    · rfl
    · have hm : ¬(max (wordSet t1).length (wordSet t2).length = 0) := by
        rcases h with h | h <;> omega
      rw [if_neg hm]
      congr 1
      rw [Nat.cast_max]
      ring

/-- Witness for C5 (amended) at a concrete pair of strings. -/
theorem c5_similarity_formula_witness :
    ((wordSet "ab").length ≠ 0 ∨ (wordSet "ba").length ≠ 0) ∧
    calculate_similarity "ab" "ba" = some (spec_similarity "ab" "ba") :=
  ⟨Or.inl (by decide), c5_similarity_formula "ab" "ba" (Or.inl (by decide))⟩

/-- C2: on the dataset whose categorical groups A, B, C have numeric
group sums 300, 500, 100, every ranking-intent question without
bottom/worst/lowest vocabulary yields the descending ranking
B:500, A:300, C:100, and every one containing that vocabulary yields the
ascending ranking C:100, A:300, B:500 (the top-5 truncation does not cut
anything here). -/
theorem c2_ranking_order (i : Intent) (qtop qbot : String)
    (hq : i.question_type = "ranking")
    (htop : (["bottom", "worst", "lowest"].any fun w => pyIn w (pyLower qtop)) = false)
    (hbot : (["bottom", "worst", "lowest"].any fun w => pyIn w (pyLower qbot)) = true) :
    lookupE (execute_smart_analytics i qtop rankDataset) "ranking" =
      some (RVal.ranking [("B", 500), ("A", 300), ("C", 100)]) ∧
    lookupE (execute_smart_analytics i qbot rankDataset) "ranking" =
      some (RVal.ranking [("C", 100), ("A", 300), ("B", 500)]) := by
  have hgroup : groupBySum (rankDataset.strData "Category") (rankDataset.numData "Revenue") =
      [("A", 300), ("B", 500), ("C", 100)] := by
    norm_num +decide [groupBySum, sortLe, insertLe, strLtB, charListLt, rankDataset,
      Dataset.strData, Dataset.numData, Dataset.findCol,
      List.filterMap_cons, List.filter_cons, List.sum_cons, List.sum_nil]
  have hcat : (match i.target_columns.find? (fun c => rankDataset.objectCols.contains c) with
               | some c => some c
               | none => rankDataset.objectCols.head?) = some "Category" := by
    cases hf : i.target_columns.find? fun c => rankDataset.objectCols.contains c with
    | none => decide
    | some c =>
      have hp := List.find?_some hf
      have hc : c = "Category" := by
        have hm : c ∈ rankDataset.objectCols := List.mem_of_elem_eq_true hp
        have hobj : rankDataset.objectCols = ["Category"] := by decide
        rw [hobj] at hm
        simpa using hm
      simp [hc]
  have hnum : (match i.target_columns.find? (fun c => rankDataset.numericCols.contains c) with
               | some c => some c
               | none => rankDataset.numericCols.head?) = some "Revenue" := by
    cases hf : i.target_columns.find? fun c => rankDataset.numericCols.contains c with
    | none => decide
    | some c =>
      have hp := List.find?_some hf
      have hc : c = "Revenue" := by
        have hm : c ∈ rankDataset.numericCols := List.mem_of_elem_eq_true hp
        have hobj : rankDataset.numericCols = ["Revenue"] := by decide
        rw [hobj] at hm
        simpa using hm
      simp [hc]
  simp +decide only [lookupE, execute_smart_analytics, hq, hcat, hnum, if_true, if_false,
    ite_true, ite_false]
  constructor
  · simp only [htop, hgroup]
    decide
  · simp only [hbot, hgroup]
    decide

/-- Witness for C2 at a concrete intent and concrete questions. -/
theorem c2_ranking_order_witness :
    (rankIntent.question_type = "ranking" ∧
     (["bottom", "worst", "lowest"].any fun w =>
        pyIn w (pyLower "show me the top products by revenue")) = false ∧
     (["bottom", "worst", "lowest"].any fun w =>
        pyIn w (pyLower "show me the bottom products by revenue")) = true) ∧
    (lookupE (execute_smart_analytics rankIntent "show me the top products by revenue"
        rankDataset) "ranking" =
      some (RVal.ranking [("B", 500), ("A", 300), ("C", 100)]) ∧
     lookupE (execute_smart_analytics rankIntent "show me the bottom products by revenue"
        rankDataset) "ranking" =
      some (RVal.ranking [("C", 100), ("A", 300), ("B", 500)])) :=
  ⟨⟨rfl, by decide, by decide⟩,
   c2_ranking_order rankIntent "show me the top products by revenue"
     "show me the bottom products by revenue" rfl (by decide) (by decide)⟩

/-- Helper: a flatMap whose function is empty on every member is
empty. -/
theorem flatMap_nil_of_forall {α β : Type} (f : α → List β) :
    ∀ l : List α, (∀ a ∈ l, f a = []) → l.flatMap f = []
  | [], _ => rfl
  | a :: t, h => by
    have ht := flatMap_nil_of_forall f t fun x hx => h x (List.mem_cons_of_mem a hx)
    simp [List.flatMap_cons, h a (List.mem_cons_self a t), ht]

/-- C6 (amended): when no referenced column resolves to a numeric column
of the dataset, the aggregation strategy of the dispatcher does not fall
back to the first numeric column; its result is only the row count under
the key total_records. -/
theorem c6_aggregation_no_fallback (i : Intent) (q : String) (d : Dataset)
    (hq : i.question_type = "aggregation")
    (hcols : ∀ c ∈ i.target_columns, d.numericCols.contains c = false) :
    execute_smart_analytics i q d =
      some ⟨"aggregation", [("total_records", RVal.num (d.nrows : ℚ))], []⟩ := by
  have hflat : (i.target_columns.flatMap fun col =>
      if d.numericCols.contains col = true then
        [(col ++ "_total", RVal.num (pdSum (d.numData col))),
         (col ++ "_average", RVal.num (pdMean (d.numData col))),
         (col ++ "_count", RVal.num ((pdCount (d.numData col) : ℚ)))]
      else []) = [] := by
    apply flatMap_nil_of_forall
    intro c hc
    rw [hcols c hc]
    simp
  simp +decide only [execute_smart_analytics, hq, if_true, if_false, ite_true, ite_false]
  rw [hflat]
  simp

/-- C6 counterexample: `aggDataset` has the numeric column "revenue",
yet an aggregation question referencing no column produces only
`total_records = 2` — not the sum, mean and non-null count of the first
numeric column that the claim describes. -/
theorem c6_aggregation_counterexample :
    execute_smart_analytics aggIntent "what is the total" aggDataset =
      some ⟨"aggregation", [("total_records", RVal.num 2)], []⟩ ∧
    lookupE (execute_smart_analytics aggIntent "what is the total" aggDataset)
      "revenue_total" = none := by
  constructor <;> decide

/-- Witness for C6 (amended) at a concrete intent and dataset. -/
theorem c6_aggregation_no_fallback_witness :
    (aggIntent.question_type = "aggregation" ∧
     ∀ c ∈ aggIntent.target_columns, aggDataset.numericCols.contains c = false) ∧
    execute_smart_analytics aggIntent "what is the total" aggDataset =
      some ⟨"aggregation", [("total_records", RVal.num (aggDataset.nrows : ℚ))], []⟩ :=
  ⟨⟨rfl, by decide⟩,
   c6_aggregation_no_fallback aggIntent "what is the total" aggDataset rfl (by decide)⟩

/-- C8 (amended): in the aggregation templates, totals above 100 get
currency-style two decimals, totals at or below 100 get plain formatting
with zero decimals, averages above 100 get currency-style two decimals,
and averages at or below 100 get plain two decimals: the zero-decimal
total branch contradicts the claim's "two decimals for all value
kinds". -/
theorem c8_aggregation_formatting (v w : ℚ) :
    generate_template_response "q" aggIntent
      ⟨"aggregation", [("revenue_total", RVal.num v), ("price_average", RVal.num w)], []⟩ =
      some ((if 100 < v then "**Total Revenue:** $" ++ pyFmtComma 2 v
             else "**Total Revenue:** " ++ pyFmtComma 0 v) ++ "\n\n" ++
            (if 100 < w then "**Average Price:** $" ++ pyFmtComma 2 w
             else "**Average Price:** " ++ pyFmtComma 2 w)) := by
  have hl : lookupR [("revenue_total", RVal.num v), ("price_average", RVal.num w)]
      "total_records" = none := by
    simp +decide [lookupR, List.find?]
  have ht1 : pyTitle (pyReplace (pyReplace "revenue_total" "_total" "") "_" " ") = "Revenue" := by
    decide
  have ht2 : pyTitle (pyReplace (pyReplace "price_average" "_average" "") "_" " ") = "Price" := by
    decide
  by_cases hv : (100:ℚ) < v <;> by_cases hw : (100:ℚ) < w <;>
    simp +decide only [generate_template_response, aggPartStep, List.foldl, joinNN, hl, ht1, ht2,
      hv, hw, if_true, if_false, ite_true, ite_false] <;> rfl

/-- C8 counterexample: the total value 50.25 is rendered "50" by the
zero-decimal branch of the total template, not "50.25" as the claimed
uniform two-decimal rule would give. -/
theorem c8_formatting_counterexample :
    generate_template_response "q" aggIntent
      ⟨"aggregation", [("revenue_total", RVal.num 50.25)], []⟩ =
      some "**Total Revenue:** 50" ∧
    ("**Total Revenue:** 50" : String) ≠ "**Total Revenue:** 50.25" := by
  refine ⟨?_, by decide⟩
  have hfmt : pyFmtComma 0 (50.25 : ℚ) = "50" := by
    have habs : |(50.25:ℚ)| = 201/4 := by norm_num
    have habs2 : |(201/4:ℚ)| = 201/4 := by norm_num [abs_of_pos]
    have hfl : ⌊(201/4 : ℚ)⌋ = 50 := by norm_num
    have hfr : Int.fract ((201/4 : ℚ)) = 1/4 := by
      rw [Int.fract, hfl]
      norm_num
    have h1 : roundHalfEven (|(50.25:ℚ)| * (10:ℚ)^(0:ℕ)) = 50 := by
      rw [roundHalfEven]
      norm_num [habs, habs2, hfl, hfr]
    rw [pyFmtComma, h1]
    norm_num
    decide
  have hl : lookupR [("revenue_total", RVal.num (50.25 : ℚ))] "total_records" = none := by
    simp +decide [lookupR, List.find?]
  have ht1 : pyTitle (pyReplace (pyReplace "revenue_total" "_total" "") "_" " ") = "Revenue" := by
    decide
  have hv : ¬((100:ℚ) < 50.25) := by norm_num
  simp +decide only [generate_template_response, aggPartStep, List.foldl, joinNN, hl, ht1, hv,
    if_true, if_false, ite_true, ite_false, hfmt]

/-- The running best score of the pattern scan stays nonnegative. -/
theorem scanPatterns_nonneg (expq iname : String) :
    ∀ (ps : List (String × ℚ)) (best : String × ℚ), 0 ≤ best.2 →
      ∀ r, scanPatterns expq iname ps best = some r → 0 ≤ r.2
  | [], best, hb, r, h => by
    rw [scanPatterns] at h
    exact Option.some.inj h ▸ hb
  | (p, conf) :: rest, best, hb, r, h => by
    rw [scanPatterns] at h
    cases hc : calculate_similarity expq p with
    | none => rw [hc] at h; cases h
    | some sim =>
      rw [hc] at h
      refine scanPatterns_nonneg expq iname rest _ ?_ r h
      dsimp only
      split
      · rename_i hlt
        exact le_of_lt (lt_of_le_of_lt hb hlt)
      · exact hb

/-- The running best score of the intent scan stays nonnegative. -/
theorem scanIntents_nonneg (expq : String) :
    ∀ (tbl : List (String × List (String × ℚ))) (best : String × ℚ), 0 ≤ best.2 →
      ∀ r, scanIntents expq tbl best = some r → 0 ≤ r.2
  | [], best, hb, r, h => by
    rw [scanIntents] at h
    exact Option.some.inj h ▸ hb
  | (iname, ps) :: rest, best, hb, r, h => by
    rw [scanIntents] at h
    cases hs : scanPatterns expq iname ps best with
    | none => rw [hs] at h; cases h
    | some best2 =>
      rw [hs] at h
      exact scanIntents_nonneg expq rest best2
        (scanPatterns_nonneg expq iname ps best hb best2 hs) r h

/-- The matcher score is never negative (it starts at 0.0 and only
strictly larger scores replace it). -/
theorem match_intent_nonneg (q : String) (m : String × ℚ × QueryMetadata)
    (h : match_intent q = some m) : 0 ≤ m.2.1 := by
  simp only [match_intent] at h
  cases hs : scanIntents (expand_with_synonyms (pyStrip (pyLower q)))
      intentPatternsTable ("unknown", 0) with
  | none => rw [hs] at h; cases h
  | some best =>
    rw [hs] at h
    cases Option.some.inj h
    exact scanIntents_nonneg _ _ _ (by norm_num) best hs

/-- The confidence `_analyze_intent` stores is the matcher score, hence
nonnegative. -/
theorem analyze_intent_conf_nonneg (d : Dataset) (q : String) (i : Intent)
    (h : analyze_intent d q = some i) : 0 ≤ i.confidence := by
  simp only [analyze_intent] at h
  cases hm : match_intent q with
  | none => rw [hm] at h; cases h
  | some m =>
    rw [hm] at h
    cases Option.some.inj h
    exact match_intent_nonneg q m hm

/-- Rounding half-to-even stays within any integer bounds enclosing the
argument. -/
theorem roundHalfEven_bounds (q : ℚ) (lo hi : ℤ) (h1 : (lo:ℚ) ≤ q) (h2 : q ≤ (hi:ℚ)) :
    lo ≤ roundHalfEven q ∧ roundHalfEven q ≤ hi := by
  have hfl : lo ≤ ⌊q⌋ := Int.le_floor.mpr h1
  have hfu : ⌊q⌋ ≤ hi := by
    have := Int.floor_le_floor h2
    simpa using this
  have hfq : (⌊q⌋ : ℚ) ≤ q := Int.floor_le q
  simp only [roundHalfEven]
  split
  · exact ⟨hfl, hfu⟩
  · split
    · rename_i h3 h4
      refine ⟨by omega, ?_⟩
      have hq1 : (⌊q⌋ : ℚ) + 1/2 < q := by linarith
      have hq2 : (⌊q⌋ : ℚ) < (hi : ℚ) := by linarith
      have : ⌊q⌋ < hi := by exact_mod_cast hq2
      omega
    · split
      · exact ⟨hfl, hfu⟩
      · rename_i h3 h4 h5
        refine ⟨by omega, ?_⟩
        have hr : q - (⌊q⌋:ℚ) = 1/2 := le_antisymm (not_lt.mp h4) (not_lt.mp h3)
        have hq2 : (⌊q⌋ : ℚ) < (hi : ℚ) := by linarith
        have : ⌊q⌋ < hi := by exact_mod_cast hq2
        omega

/-- The confidence scorer stays within [0, 0.99] whenever the base
confidence is nonnegative. -/
theorem calculate_confidence_bounds (st : AgentState) (i : Intent) (a : AnalyticsResult)
    (h : 0 ≤ i.confidence) :
    0 ≤ calculate_confidence st i a ∧ calculate_confidence st i a ≤ 0.99 := by
  simp only [calculate_confidence]
  set rb : ℚ := match st.current_data with
    | some d => if 30 ≤ d.nrows then 0.1 else if 10 ≤ d.nrows then 0.05 else 0
    | none => 0 with hrb
  set db : ℚ := if 0 < a.data.length then 0.1 else 0 with hdb
  set cb : ℚ := if i.target_columns ≠ [] then 0.05 else 0 with hcb
  have hrb0 : 0 ≤ rb := by
    rw [hrb]
    cases st.current_data
    · norm_num
    · dsimp only
      split
      · norm_num
      · split <;> norm_num
  have hdb0 : 0 ≤ db := by rw [hdb]; split <;> norm_num
  have hcb0 : 0 ≤ cb := by rw [hcb]; split <;> norm_num
  set X : ℚ := min 0.99 (i.confidence + (rb + db + cb)) with hX
  have h0 : 0 ≤ X := le_min (by norm_num) (by linarith)
  have h99 : X ≤ 0.99 := min_le_left _ _
  have hb := roundHalfEven_bounds (X * 100) 0 99 (by push_cast; linarith) (by push_cast; linarith)
  have hcast1 : (0:ℚ) ≤ (roundHalfEven (X * 100) : ℚ) := by exact_mod_cast hb.1
  have hcast2 : (roundHalfEven (X * 100) : ℚ) ≤ 99 := by exact_mod_cast hb.2
  constructor
  · positivity
  · rw [div_le_iff₀ (by norm_num : (0:ℚ) < 100)]
    norm_num
    linarith

/-- C4: every envelope `ask` returns has 0 ≤ confidence ≤ 0.99, and the
deterministic confidence scorer caps its result at 0.99 and rounds it to
two decimals (an integer number of hundredths), so the confidence is
never exactly 1.0. -/
theorem c4_confidence_bounds :
    (∀ st q e st2, ask st q = some (e, st2) →
       0 ≤ e.confidence ∧ e.confidence ≤ 0.99) ∧
    (∀ st i a, 0 ≤ i.confidence →
       (0 ≤ calculate_confidence st i a ∧ calculate_confidence st i a ≤ 0.99) ∧
       ∃ n : ℤ, calculate_confidence st i a = (n : ℚ) / 100) := by
  constructor
  · intro st q e st2 h
    unfold ask at h
    split at h
    · obtain ⟨he, hst⟩ := (Prod.mk.injEq _ _ _ _).mp (Option.some.inj h)
      rw [← he]
      norm_num [noDataEnvelope]
    · rename_i d hd
      dsimp only at h
      split at h
      · obtain ⟨he, hst⟩ := (Prod.mk.injEq _ _ _ _).mp (Option.some.inj h)
        rw [← he]
        norm_num
      · cases ha : analyze_intent d q with
        | none => rw [ha] at h; cases h
        | some intent =>
          rw [ha] at h
          dsimp only at h
          cases hex : execute_smart_analytics intent q d with
          | none => rw [hex] at h; cases h
          | some analytics =>
            rw [hex] at h
            dsimp only at h
            cases ht : generate_template_response q intent analytics with
            | none => rw [ht] at h; cases h
            | some answer =>
              rw [ht] at h
              cases hr : generate_strategic_recommendations intent analytics with
              | none => rw [hr] at h; cases h
              | some recs =>
                rw [hr] at h
                obtain ⟨he, hst⟩ := (Prod.mk.injEq _ _ _ _).mp (Option.some.inj h)
                rw [← he]
                exact calculate_confidence_bounds st intent _
                  (analyze_intent_conf_nonneg d q intent ha)
  · intro st i a h
    exact ⟨calculate_confidence_bounds st i a h, ⟨_, rfl⟩⟩


/-- Witness for C4: hypotheses discharged at a concrete no-data ask and
at a concrete intent with nonnegative base confidence. -/
theorem c4_confidence_bounds_witness :
    (ask emptyState "total?" = some (noDataEnvelope, emptyState) ∧
     0 ≤ noDataEnvelope.confidence ∧ noDataEnvelope.confidence ≤ 0.99) ∧
    (0 ≤ aggIntent.confidence ∧
     (0 ≤ calculate_confidence emptyState aggIntent ⟨"aggregation", [], []⟩ ∧
      calculate_confidence emptyState aggIntent ⟨"aggregation", [], []⟩ ≤ 0.99) ∧
     ∃ n : ℤ, calculate_confidence emptyState aggIntent ⟨"aggregation", [], []⟩ = (n : ℚ) / 100) :=
  ⟨⟨rfl, c4_confidence_bounds.1 emptyState "total?" noDataEnvelope emptyState rfl⟩,
   ⟨by norm_num [aggIntent],
    c4_confidence_bounds.2 emptyState aggIntent ⟨"aggregation", [], []⟩
      (by norm_num [aggIntent])⟩⟩

/-- A successful dict lookup returns the value of a member entry. -/
theorem lookupR_mem {data : List (String × RVal)} {k : String} {v : RVal}
    (h : lookupR data k = some v) : ∃ p ∈ data, p.2 = v := by
  unfold lookupR at h
  cases hf : data.find? fun p => p.1 == k with
  | none => rw [hf] at h; cases h
  | some p =>
    rw [hf] at h
    exact ⟨p, List.mem_of_find?_eq_some hf, Option.some.inj h⟩

/-- Dispatcher invariant: whatever the intent, question and dataset, a
"trend" entry always carries date and value lists of equal length (both
are maps over the same `daily` series). -/
theorem trend_lists_length (i : Intent) (q : String) (d : Dataset) (r : AnalyticsResult)
    (dates : List String) (values : List ℚ) (dc vc : String)
    (hr : execute_smart_analytics i q d = some r)
    (h : lookupR r.data "trend" = some (RVal.trendData dates values dc vc)) :
    dates.length = values.length := by
  unfold execute_smart_analytics at hr
  by_cases h1 : (i.question_type == "aggregation") = true
  · rw [if_pos h1] at hr
    dsimp only at hr
    obtain rfl := Option.some.inj hr
    dsimp only at h
    split at h
    · simp +decide [lookupR, List.find?] at h
    · obtain ⟨p, hp, hv⟩ := lookupR_mem h
      obtain ⟨col, hcol, hmem⟩ := List.mem_flatMap.mp hp
      split at hmem <;> simp at hmem
      rcases hmem with h1 | h1 | h1 <;> rw [h1] at hv <;> simp at hv
  · rw [if_neg h1] at hr
    by_cases h2 : (i.question_type == "ranking") = true
    · rw [if_pos h2] at hr
      dsimp only at hr
      split at hr
      · obtain rfl := Option.some.inj hr
        simp +decide [lookupR, List.find?] at h
      · obtain rfl := Option.some.inj hr
        simp [lookupR] at h
    · rw [if_neg h2] at hr
      by_cases h3 : (i.question_type == "trend_analysis") = true
      · rw [if_pos h3] at hr
        split at hr
        · split at hr
          · cases hr
          · split at hr <;>
            · obtain rfl := Option.some.inj hr
              simp +decide only [lookupR, List.find?] at h
              obtain ⟨hd, hv, _, _⟩ := RVal.trendData.inj (Option.some.inj h).symm
              rw [hd, hv]
              simp
        · obtain rfl := Option.some.inj hr
          simp [lookupR] at h
      · rw [if_neg h3] at hr
        by_cases h4 : (i.question_type == "comparison") = true
        · rw [if_pos h4] at hr
          split at hr
          · obtain rfl := Option.some.inj hr
            simp +decide [lookupR, List.find?] at h
          · obtain rfl := Option.some.inj hr
            simp [lookupR] at h
        · rw [if_neg h4] at hr
          by_cases h5 : (i.question_type == "statistics") = true
          · rw [if_pos h5] at hr
            obtain rfl := Option.some.inj hr
            obtain ⟨p, hp, hv⟩ := lookupR_mem h
            obtain ⟨col, hcol, hpe⟩ := List.mem_map.mp hp
            rw [← hpe] at hv
            cases hv
          · rw [if_neg h5] at hr
            obtain rfl := Option.some.inj hr
            simp [lookupR] at h

/-- A bar chart produced by `_create_bar_chart` plots the keys and
values of one ranking list. -/
theorem create_bar_chart_shape (data : List (String × RVal)) (v : VizItem)
    (h : create_bar_chart data = some v) :
    ∃ l : List (String × ℚ),
      v = { vtype := "bar_chart",
            figure := some (.xy (l.map fun p => p.1) (l.map fun p => p.2)),
            title := "Top Performers Analysis", metricsData := [] } := by
  unfold create_bar_chart at h
  split at h
  · split at h
    · cases h
    · rename_i l _ _
      exact ⟨l, (Option.some.inj h).symm⟩
  · cases h

/-- Any chart_data extracted from the charts generated for a dispatcher
result has x and y of equal length. -/
theorem charts_shape (i : Intent) (q : String) (d : Dataset) (r : AnalyticsResult)
    (c : ChartData) (hr : execute_smart_analytics i q d = some r)
    (h : chartDataOf (auto_generate_charts i r) = some c) :
    c.x.length = c.y.length := by
  unfold auto_generate_charts at h
  cases hv : i.visualization_type with
  | none => rw [hv] at h; simp [chartDataOf] at h
  | some vt =>
    rw [hv] at h
    dsimp only at h
    split at h
    · -- bar chart branch
      split at h
      · rename_i cb hcb
        obtain ⟨l, rfl⟩ := create_bar_chart_shape _ cb hcb
        simp [chartDataOf] at h
        rw [← h]
        simp
      · simp [chartDataOf] at h
    · split at h
      · -- line chart branch
        split at h
        · rename_i dates values dcc vcc hlook
          cases hcl : create_line_chart dates values with
          | none => rw [hcl] at h; simp [chartDataOf] at h
          | some cb =>
            rw [hcl] at h
            unfold create_line_chart at hcl
            split at hcl
            · cases hcl
            · cases Option.some.inj hcl
              simp +decide only [chartDataOf] at h
              rw [← Option.some.inj h]
              simpa using trend_lists_length i q d r dates values dcc vcc hr hlook
        · simp [chartDataOf] at h
      · split at h
        · -- comparison branch
          split at h
          · rename_i cat met segs hlook
            cases hcc : create_comparison_chart cat segs with
            | none => rw [hcc] at h; simp [chartDataOf] at h
            | some cb =>
              rw [hcc] at h
              unfold create_comparison_chart at hcc
              split at hcc
              · cases hcc
              · cases Option.some.inj hcc
                simp +decide only [chartDataOf] at h
                rw [← Option.some.inj h]
                simp
          · simp [chartDataOf] at h
        · split at h
          · -- distribution branch
            unfold create_distribution_chart at h
            simp [chartDataOf] at h
          · split at h
            · -- metric card branch
              simp [chartDataOf] at h
            · simp [chartDataOf] at h

/-- C9: whenever `ask` returns a non-null chart specification whose kind
is not metrics (bar or line), the x and y sequences have equal length —
stated as a Boolean invariant over every agent state and question. -/
theorem c9_chart_shape (st : AgentState) (q : String) : chartShapeOk (ask st q) = true := by
  unfold ask
  split
  · rfl
  · rename_i d hd
    dsimp only
    split
    · rfl
    · cases ha : analyze_intent d q with
      | none => rfl
      | some intent =>
        cases hex : execute_smart_analytics intent q d with
        | none => simp [ha, hex, chartShapeOk]
        | some analytics =>
          cases ht : generate_template_response q intent analytics with
          | none => simp [ha, hex, ht, chartShapeOk]
          | some answer =>
            cases hr : generate_strategic_recommendations intent analytics with
            | none => simp [ha, hex, ht, hr, chartShapeOk]
            | some recs =>
              simp only [ha, hex, ht, hr, chartShapeOk]
              cases hc : chartDataOf (auto_generate_charts intent analytics) with
              | none => rfl
              | some c =>
                have := charts_shape intent q d analytics c hex hc
                simp [this]

theorem leadsWith_nil (l : List Char) : leadsWith l [] = true := by
  cases l <;> rfl

theorem pyIn_empty_needle (s : String) : pyIn "" s = true := by
  unfold pyIn subIn
  apply List.any_eq_true.mpr
  exact ⟨0, by simp, by rw [List.drop_zero]; exact leadsWith_nil _⟩

theorem splitWsAux_words : ∀ (cs acc : List Char), (∀ c ∈ acc, pySpace c = false) →
    ∀ w ∈ splitWsAux cs acc, w ≠ [] ∧ ∀ c ∈ w, pySpace c = false
  | [], acc, hacc, w, hw => by
    rw [splitWsAux] at hw
    split at hw
    · cases hw
    · rename_i hne
      rw [List.mem_singleton] at hw
      subst hw
      exact ⟨by simpa using hne, fun c hc => hacc c (List.mem_reverse.mp hc)⟩
  | c :: cs, acc, hacc, w, hw => by
    rw [splitWsAux] at hw
    split at hw
    · rename_i hsp
      split at hw
      · exact splitWsAux_words cs [] (by simp) w hw
      · rename_i hne
        rcases List.mem_cons.mp hw with h1 | h1
        · subst h1
          exact ⟨by simpa using hne, fun c hc => hacc c (List.mem_reverse.mp hc)⟩
        · exact splitWsAux_words cs [] (by simp) w h1
    · rename_i hsp
      refine splitWsAux_words cs (c :: acc) ?_ w hw
      intro x hx
      rcases List.mem_cons.mp hx with h1 | h1
      · subst h1; simpa using hsp
      · exact hacc x h1

theorem splitWsAux_eq_nil : ∀ (cs acc : List Char), splitWsAux cs acc = [] →
    acc = [] ∧ ∀ c ∈ cs, pySpace c = true
  | [], acc, h => by
    rw [splitWsAux] at h
    split at h
    · rename_i he; exact ⟨he, by simp⟩
    · cases h
  | c :: cs, acc, h => by
    rw [splitWsAux] at h
    split at h
    · rename_i hsp
      split at h
      · rename_i he
        obtain ⟨_, hall⟩ := splitWsAux_eq_nil cs [] h
        refine ⟨he, ?_⟩
        intro x hx
        rcases List.mem_cons.mp hx with h1 | h1
        · subst h1; exact hsp
        · exact hall x h1
      · cases h
    · rename_i hsp
      obtain ⟨he, _⟩ := splitWsAux_eq_nil cs (c :: acc) h
      cases he

theorem joinSpace_cons_data (w : String) (ws : List String) :
    ∃ t, (joinSpace (w :: ws)).data = w.data ++ t := by
  cases ws with
  | nil => exact ⟨[], by simp [joinSpace]⟩
  | cons x xs =>
    refine ⟨' ' :: (joinSpace (x :: xs)).data, ?_⟩
    show ((w ++ " ") ++ joinSpace (x :: xs)).data = w.data ++ (' ' :: (joinSpace (x :: xs)).data)
    simp [String.data_append]

theorem pySplit_ne_nil (s : String) (c : Char) (hc : c ∈ s.data) (hs : pySpace c = false) :
    pySplit s ≠ [] := by
  intro h
  unfold pySplit at h
  rw [List.map_eq_nil_iff] at h
  obtain ⟨_, hall⟩ := splitWsAux_eq_nil s.data [] h
  rw [hall c hc] at hs
  cases hs

theorem wordSet_ne_nil (s : String) (c : Char) (hc : c ∈ s.data) (hs : pySpace c = false) :
    wordSet s ≠ [] := by
  intro h
  unfold wordSet at h
  exact pySplit_ne_nil s c hc hs ((List.dedup_eq_nil _).mp h)

theorem pySplit_word_shape (s : String) (w : String) (hw : w ∈ pySplit s) :
    w.data ≠ [] ∧ ∀ c ∈ w.data, pySpace c = false := by
  unfold pySplit at hw
  obtain ⟨wl, hwl, rfl⟩ := List.mem_map.mp hw
  exact splitWsAux_words s.data [] (by simp) wl hwl

theorem expand_has_char (q : String) (h : expand_with_synonyms q ≠ "") :
    ∃ c ∈ (expand_with_synonyms q).data, pySpace c = false := by
  simp only [expand_with_synonyms] at h ⊢
  cases hw : pySplit q with
  | nil =>
    rw [hw] at h
    exact absurd rfl h
  | cons w ws =>
    have hword := pySplit_word_shape q w (hw ▸ List.mem_cons_self w ws)
    simp only [List.flatMap_cons, List.cons_append]
    obtain ⟨t, ht⟩ := joinSpace_cons_data w _
    rw [ht]
    cases hcw : w.data with
    | nil => exact absurd hcw hword.1
    | cons c0 rest =>
      exact ⟨c0, by simp, hword.2 c0 (by rw [hcw]; simp)⟩

theorem calculate_similarity_total (q p : String) :
    (calculate_similarity (expand_with_synonyms q) p).isSome = true := by
  unfold calculate_similarity
  by_cases he : expand_with_synonyms q = p
  · rw [if_pos he]; rfl
  · rw [if_neg he]
    by_cases hin : (pyIn p (expand_with_synonyms q) || pyIn (expand_with_synonyms q) p) = true
    · rw [if_pos hin]; rfl
    · rw [if_neg hin]
      have hne : expand_with_synonyms q ≠ "" := by
        intro h0
        apply hin
        rw [h0]
        rw [pyIn_empty_needle p]
        simp
      have hws : wordSet (expand_with_synonyms q) ≠ [] := by
        obtain ⟨c, hc, hs⟩ := expand_has_char q hne
        exact wordSet_ne_nil _ c hc hs
      have hm : ¬(max (wordSet (expand_with_synonyms q)).length (wordSet p).length = 0) := by
        intro h0
        rw [Nat.max_eq_zero_iff] at h0
        exact hws (List.length_eq_zero.mp h0.1)
      rw [if_neg hm]
      rfl

theorem scanPatterns_total (q iname : String) :
    ∀ (ps : List (String × ℚ)) (best : String × ℚ),
      (scanPatterns (expand_with_synonyms q) iname ps best).isSome = true
  | [], _ => rfl
  | (p, conf) :: rest, best => by
    rw [scanPatterns]
    cases hc : calculate_similarity (expand_with_synonyms q) p with
    | none =>
      have h := calculate_similarity_total q p
      rw [hc] at h
      cases h
    | some sim => exact scanPatterns_total q iname rest _

theorem scanIntents_total (q : String) :
    ∀ (tbl : List (String × List (String × ℚ))) (best : String × ℚ),
      (scanIntents (expand_with_synonyms q) tbl best).isSome = true
  | [], _ => rfl
  | (iname, ps) :: rest, best => by
    rw [scanIntents]
    cases hs : scanPatterns (expand_with_synonyms q) iname ps best with
    | none =>
      have h := scanPatterns_total q iname ps best
      rw [hs] at h
      cases h
    | some b2 => exact scanIntents_total q rest b2

theorem match_intent_total (q : String) : (match_intent q).isSome = true := by
  simp only [match_intent]
  cases hs : scanIntents (expand_with_synonyms (pyStrip (pyLower q)))
      intentPatternsTable ("unknown", 0) with
  | none =>
    have h := scanIntents_total (pyStrip (pyLower q)) intentPatternsTable ("unknown", 0)
    rw [hs] at h
    cases h
  | some best => rfl

theorem analyze_intent_total (d : Dataset) (q : String) :
    (analyze_intent d q).isSome = true := by
  simp only [analyze_intent]
  cases hm : match_intent q with
  | none =>
    have h := match_intent_total q
    rw [hm] at h
    cases h
  | some m => rfl


theorem dispatch_ok (i : Intent) (q : String) (d : Dataset) (r : AnalyticsResult)
    (hex : execute_smart_analytics i q d = some r) : DispatchOk r := by
  unfold execute_smart_analytics at hex
  by_cases h1 : (i.question_type == "aggregation") = true
  · rw [if_pos h1] at hex
    have hq : i.question_type = "aggregation" := by simpa using h1
    dsimp only at hex
    obtain rfl := Option.some.inj hex
    refine ⟨?_, ?_, ?_, ?_⟩
    · intro _ kv hkv
      split at hkv
      · simp at hkv
        rw [hkv]
        exact ⟨_, rfl⟩
      · obtain ⟨col, hcol, hmem⟩ := List.mem_flatMap.mp hkv
        split at hmem <;> simp at hmem
        rcases hmem with hh | hh | hh <;> rw [hh] <;> exact ⟨_, rfl⟩
    · intro hr; simp [hq] at hr
    · intro hr; simp [hq] at hr
    · intro hr; simp [hq] at hr
  · rw [if_neg h1] at hex
    by_cases h2 : (i.question_type == "ranking") = true
    · rw [if_pos h2] at hex
      have hq : i.question_type = "ranking" := by simpa using h2
      dsimp only at hex
      split at hex
      · obtain rfl := Option.some.inj hex
        refine ⟨?_, ?_, ?_, ?_⟩
        · intro hr; simp [hq] at hr
        · intro _ v hv
          simp +decide [lookupR, List.find?] at hv
          exact ⟨_, hv.symm⟩
        · intro hr; simp [hq] at hr
        · intro hr; simp [hq] at hr
      · obtain rfl := Option.some.inj hex
        refine ⟨?_, ?_, ?_, ?_⟩
        · intro hr; simp [hq] at hr
        · intro _ v hv; simp [lookupR] at hv
        · intro hr; simp [hq] at hr
        · intro hr; simp [hq] at hr
    · rw [if_neg h2] at hex
      by_cases h3 : (i.question_type == "trend_analysis") = true
      · rw [if_pos h3] at hex
        have hq : i.question_type = "trend_analysis" := by simpa using h3
        split at hex
        · split at hex
          · cases hex
          · split at hex
            · obtain rfl := Option.some.inj hex
              refine ⟨?_, ?_, ?_, ?_⟩
              · intro hr; simp [hq] at hr
              · intro hr; simp [hq] at hr
              · intro _ v hv
                simp +decide [lookupR, List.find?] at hv
                exact ⟨_, _, _, _, hv.symm⟩
              · intro hr; simp [hq] at hr
            · obtain rfl := Option.some.inj hex
              refine ⟨?_, ?_, ?_, ?_⟩
              · intro hr; simp [hq] at hr
              · intro hr; simp [hq] at hr
              · intro _ v hv
                simp +decide [lookupR, List.find?] at hv
                exact ⟨_, _, _, _, hv.symm⟩
              · intro hr; simp [hq] at hr
        · obtain rfl := Option.some.inj hex
          refine ⟨?_, ?_, ?_, ?_⟩
          · intro hr; simp [hq] at hr
          · intro hr; simp [hq] at hr
          · intro _ v hv; simp [lookupR] at hv
          · intro hr; simp [hq] at hr
      · rw [if_neg h3] at hex
        by_cases h4 : (i.question_type == "comparison") = true
        · rw [if_pos h4] at hex
          have hq : i.question_type = "comparison" := by simpa using h4
          split at hex
          · obtain rfl := Option.some.inj hex
            refine ⟨?_, ?_, ?_, ?_⟩
            · intro hr; simp [hq] at hr
            · intro hr; simp [hq] at hr
            · intro hr; simp [hq] at hr
            · intro _ v hv
              simp +decide [lookupR, List.find?] at hv
              exact ⟨_, _, _, hv.symm⟩
          · obtain rfl := Option.some.inj hex
            refine ⟨?_, ?_, ?_, ?_⟩
            · intro hr; simp [hq] at hr
            · intro hr; simp [hq] at hr
            · intro hr; simp [hq] at hr
            · intro _ v hv; simp [lookupR] at hv
        · rw [if_neg h4] at hex
          by_cases h5 : (i.question_type == "statistics") = true
          · rw [if_pos h5] at hex
            have hq : i.question_type = "statistics" := by simpa using h5
            obtain rfl := Option.some.inj hex
            refine ⟨?_, ?_, ?_, ?_⟩ <;> intro hr <;> simp [hq] at hr
          · rw [if_neg h5] at hex
            obtain rfl := Option.some.inj hex
            refine ⟨?_, ?_, ?_, ?_⟩
            · intro _ kv hkv; simp at hkv
            · intro _ v hv; simp [lookupR] at hv
            · intro _ v hv; simp [lookupR] at hv
            · intro _ v hv; simp [lookupR] at hv

theorem aggPartStep_some (acc : List String) (kv : String × RVal) (x : ℚ)
    (hx : kv.2 = RVal.num x) : ∃ acc2, aggPartStep (some acc) kv = some acc2 := by
  simp only [aggPartStep]
  rw [hx]
  by_cases h1 : pyIn "total" kv.1 = true
  · rw [if_pos h1]; exact ⟨_, rfl⟩
  · rw [if_neg h1]
    by_cases h2 : pyIn "average" kv.1 = true
    · rw [if_pos h2]; exact ⟨_, rfl⟩
    · rw [if_neg h2]; exact ⟨acc, rfl⟩

theorem aggFold_some : ∀ (entries : List (String × RVal)) (acc : List String),
    (∀ kv ∈ entries, ∃ x, kv.2 = RVal.num x) →
    (entries.foldl aggPartStep (some acc)).isSome = true
  | [], _, _ => rfl
  | kv :: rest, acc, h => by
    rw [List.foldl_cons]
    obtain ⟨x, hx⟩ := h kv (List.mem_cons_self kv rest)
    obtain ⟨acc2, h2⟩ := aggPartStep_some acc kv x hx
    rw [h2]
    exact aggFold_some rest acc2 fun z hz => h z (List.mem_cons_of_mem kv hz)

theorem template_total (q : String) (i : Intent) (d : Dataset) (r : AnalyticsResult)
    (hex : execute_smart_analytics i q d = some r) :
    (generate_template_response q i r).isSome = true := by
  obtain ⟨hagg, hrank, htrend, hcomp⟩ := dispatch_ok i q d r hex
  simp only [generate_template_response]
  by_cases h1 : (r.rtype == "aggregation") = true
  · rw [if_pos h1]
    have hf : (r.data.foldl aggPartStep (some [])).isSome = true :=
      aggFold_some r.data [] (hagg (by simpa using h1))
    obtain ⟨parts, hp⟩ := Option.isSome_iff_exists.mp hf
    rw [hp]
    rfl
  · rw [if_neg h1]
    by_cases h2 : (r.rtype == "ranking") = true
    · rw [if_pos h2]
      cases hlk : lookupR r.data "ranking" with
      | none => rfl
      | some v =>
        obtain ⟨l, hv⟩ := hrank (by simpa using h2) v hlk
        subst hv
        cases l <;> rfl
    · rw [if_neg h2]
      by_cases h3 : (r.rtype == "trend_analysis") = true
      · rw [if_pos h3]
        cases hlk : lookupR r.data "trend" with
        | none => rfl
        | some v =>
          obtain ⟨a, b, c, dd, hv⟩ := htrend (by simpa using h3) v hlk
          subst hv
          rfl
      · rw [if_neg h3]
        by_cases h4 : (r.rtype == "comparison") = true
        · rw [if_pos h4]
          cases hlk : lookupR r.data "comparison" with
          | none => rfl
          | some v =>
            obtain ⟨a, b, c, hv⟩ := hcomp (by simpa using h4) v hlk
            subst hv
            rfl
        · rw [if_neg h4]
          rfl

theorem recommendations_total (i : Intent) (q : String) (d : Dataset) (r : AnalyticsResult)
    (hex : execute_smart_analytics i q d = some r) :
    (generate_strategic_recommendations i r).isSome = true := by
  obtain ⟨-, hrank, -, -⟩ := dispatch_ok i q d r hex
  simp only [generate_strategic_recommendations]
  by_cases h1 : (r.rtype == "ranking") = true
  · rw [if_pos h1]
    cases hlk : lookupR r.data "ranking" with
    | none => rfl
    | some v =>
      obtain ⟨l, hv⟩ := hrank (by simpa using h1) v hlk
      subst hv
      cases l <;> rfl
  · rw [if_neg h1]
    by_cases h2 : (r.rtype == "trend_analysis") = true
    · rw [if_pos h2]
      split
      · rfl
      · split <;> rfl
    · rw [if_neg h2]
      split <;> rfl

/-- Outside the trend-strategy raise condition the dispatcher always
returns a result. -/
theorem execute_isSome (i : Intent) (q : String) (d : Dataset)
    (h : dateTrapped d = false) : (execute_smart_analytics i q d).isSome = true := by
  unfold execute_smart_analytics
  by_cases h1 : (i.question_type == "aggregation") = true
  · rw [if_pos h1]; rfl
  · rw [if_neg h1]
    by_cases h2 : (i.question_type == "ranking") = true
    · rw [if_pos h2]
      dsimp only
      split <;> rfl
    · rw [if_neg h2]
      by_cases h3 : (i.question_type == "trend_analysis") = true
      · rw [if_pos h3]
        unfold dateTrapped at h
        cases htc : trendDateCols d with
        | nil => rfl
        | cons dc dcs =>
          cases hnc : d.numericCols with
          | nil => rfl
          | cons vc vcs =>
            rw [htc, hnc] at h
            dsimp only at h ⊢
            rw [if_neg (by simp [h])]
            split <;> rfl
      · rw [if_neg h3]
        by_cases h4 : (i.question_type == "comparison") = true
        · rw [if_pos h4]
          split <;> rfl
        · rw [if_neg h4]
          by_cases h5 : (i.question_type == "statistics") = true
          · rw [if_pos h5]; rfl
          · rw [if_neg h5]; rfl

/-- `ask` never raises on a state whose dataset avoids the
trend-strategy raise condition; the no-data and gate paths are total
outright, and the matcher chain is total everywhere. -/
theorem ask_total_of_dateSafe (st : AgentState) (q : String)
    (h : dateSafe st = true) : (ask st q).isSome = true := by
  simp only [ask]
  cases hd : st.current_data with
  | none => rfl
  | some d =>
    dsimp only
    by_cases hv : (check_if_vague_or_irrelevant st q).is_vague = true
    · rw [if_pos hv]; rfl
    · rw [if_neg hv]
      obtain ⟨it, hit⟩ := Option.isSome_iff_exists.mp (analyze_intent_total d q)
      rw [hit]
      dsimp only
      have hsafe : dateTrapped d = false := by
        unfold dateSafe at h
        rw [hd] at h
        simpa using h
      obtain ⟨r, hrr⟩ := Option.isSome_iff_exists.mp (execute_isSome it q d hsafe)
      rw [hrr]
      dsimp only
      obtain ⟨ans, hans⟩ := Option.isSome_iff_exists.mp (template_total q it d r hrr)
      rw [hans]
      dsimp only
      obtain ⟨recs, hrecs⟩ := Option.isSome_iff_exists.mp (recommendations_total it q d r hrr)
      rw [hrecs]
      rfl

/-- The keyword-override chain of `_analyze_intent` fixes the question
type independently of the matcher score: with no aggregation or ranking
keyword and a trend keyword present, every intent it returns is
classified trend_analysis. -/
theorem analyze_intent_qtype (d : Dataset) (q : String) (it : Intent)
    (hi : analyze_intent d q = some it)
    (h1 : (["total", "sum", "how much", "how many"].any
      fun w => pyIn w (pyLower q)) = false)
    (h2 : (["top", "best", "highest", "most", "bottom", "worst", "lowest"].any
      fun w => pyIn w (pyLower q)) = false)
    (h3 : (["trend", "over time", "time series", "change"].any
      fun w => pyIn w (pyLower q)) = true) :
    it.question_type = "trend_analysis" := by
  simp only [analyze_intent] at hi
  cases hm : match_intent q with
  | none => rw [hm] at hi; cases hi
  | some m =>
    rw [hm] at hi
    rw [h1, h2, h3] at hi
    simp only [Bool.false_eq_true, if_false, if_true] at hi
    rw [← Option.some.inj hi]

/-- With a trend-classified intent, the dispatcher on `dateTrapDataset`
hits the raise: its single column "update_count" is both the first
date-named and the first numeric column. -/
theorem execute_trap (i : Intent) (q : String)
    (hqt : i.question_type = "trend_analysis") :
    execute_smart_analytics i q dateTrapDataset = none := by
  simp only [execute_smart_analytics, hqt]
  rw [if_neg (by decide), if_neg (by decide), if_pos (by decide)]
  decide

/-- If the gate passes a question and every intent the analyzer can
return drives the dispatcher into its raising path, the exception
escapes `ask`. -/
theorem ask_raises_of_dispatch_none (st : AgentState) (q : String) (d : Dataset)
    (hd : st.current_data = some d)
    (hv : (check_if_vague_or_irrelevant st q).is_vague = false)
    (hx : ∀ it, analyze_intent d q = some it → execute_smart_analytics it q d = none) :
    ask st q = none := by
  simp only [ask]
  rw [hd]
  dsimp only
  rw [if_neg (by simp [hv])]
  cases hi : analyze_intent d q with
  | none => rfl
  | some it =>
    dsimp only
    rw [hx it hi]

/-- C1 (code bug): the spec promises that `ask` returns a well-formed
envelope for every question and dataset state and never raises, but the
modeled `ask` hits the raising path. On a dataset whose single column is
the numeric "update_count" — its name contains "date", so the trend
strategy picks it as the date column AND as the value column — the
question "how does update_count change over time" passes the relevance
gate, the keyword chain classifies it trend_analysis, and the dispatcher
converts the column with `pd.to_datetime` and then sums the
datetime-converted values in `groupby(date_col)[value_col].sum()`, an
uncaught `TypeError`: no envelope is returned. -/
theorem c1_trend_typeerror :
    ask dateTrapState "how does update_count change over time" = none :=
  ask_raises_of_dispatch_none dateTrapState _ dateTrapDataset rfl (by decide)
    (fun it hi => execute_trap it _ (analyze_intent_qtype dateTrapDataset _ it hi
      (by decide) (by decide) (by decide)))
